import Mathlib

/-!
# tiflow: two-phase task dispatcher and balance scheduler

A shallow embedding of

* `engine/client/task_dispatcher.go` (namespace `client`): the two-phase
  hand-off `DispatchTask`, its retry loop `preDispatchTaskWithRetry` and the
  two request senders `preDispatchTaskOnce` and `confirmDispatchTask`;
* `cdc/scheduler/internal/v3/scheduler_balance.go` (namespace `v3`): the
  balance scheduler `Schedule` and `buildBalanceMoveTables`.

Go code that talks to the outside (the RPC client, the clock, the context, the
UUID generator, the two caller-supplied hooks, the logger) is embedded by
explicit state passing: an `Env` scripts what the outside answers, a `St`
carries the clock and the trace of observable events.  The retry loop is an
unbounded `for`, so it takes a fuel argument and returns `none` when the fuel
runs out before the loop returns.
-/

/-! ## Time -/

/-- An instant (`time.Time`), in nanoseconds on one clock. -/
abbrev Time := Int

/-- A `time.Duration`: a signed count of nanoseconds. -/
abbrev Duration := Int

namespace time

/-- The smallest `time.Duration` (the smallest int64). -/
def minDuration : Duration := -9223372036854775808

/-- The largest `time.Duration` (the largest int64). -/
def maxDuration : Duration := 9223372036854775807

/-- The method `t.Sub(u)`: the difference `t - u`, saturated at the largest and
the smallest duration as the Go library documents. -/
def Sub (t u : Time) : Duration :=
  if maxDuration < t - u then maxDuration
  else if t - u < minDuration then minDuration
  else t - u

/-- The method `t.Add(d)`. -/
def Add (t : Time) (d : Duration) : Time := t + d

/-- The method `t.After(u)`. -/
def After (t u : Time) : Bool := decide (u < t)

end time

/-! ## Errors and gRPC status codes -/

/-- A gRPC status code (`codes.Code`, an unsigned integer). -/
abbrev Code := Nat

namespace codes

def OK : Code := 0
def Canceled : Code := 1
def Unknown : Code := 2
def InvalidArgument : Code := 3
def DeadlineExceeded : Code := 4
def NotFound : Code := 5
def AlreadyExists : Code := 6
def PermissionDenied : Code := 7
def ResourceExhausted : Code := 8
def FailedPrecondition : Code := 9
def Aborted : Code := 10
def OutOfRange : Code := 11
def Unimplemented : Code := 12
def Internal : Code := 13
def Unavailable : Code := 14
def DataLoss : Code := 15
def Unauthenticated : Code := 16

end codes

/-- The two normalized errors of `pkg/errors` that the dispatcher wraps with. -/
inductive ErrKind
  | ErrExecutorPreDispatchFailed
  | ErrExecutorConfirmDispatchFailed
  deriving DecidableEq, Repr

/-- A non-nil Go `error` value.  A nil error is `none : Option GoError`. -/
inductive GoError
  /-- An error that carries a gRPC status (it has a `GRPCStatus` method). -/
  | grpc (code : Code) (msg : String)
  /-- Any other error of the transport: no structured status. -/
  | plain (msg : String)
  /-- The value `context.Canceled`. -/
  | Canceled
  /-- The value `context.DeadlineExceeded`. -/
  | DeadlineExceeded
  /-- The result of `errors.Trace(e)` for a non-nil `e`. -/
  | Trace (e : GoError)
  /-- The result of `errors.Annotate(e, msg)` for a non-nil `e`. -/
  | Annotate (e : GoError) (msg : String)
  /-- The result of `kind.Wrap(e)` for a non-nil `e`. -/
  | Wrap (kind : ErrKind) (cause : GoError)
  deriving DecidableEq, Repr

namespace errors

/-- The function `errors.Trace`: nil for nil, a non-nil error otherwise. -/
def Trace : Option GoError → Option GoError
  | none => none
  | some e => some (GoError.Trace e)

end errors

namespace status

/-- A gRPC `Status`: a code and a message. -/
structure Status where
  Code : Code
  Message : String
  deriving DecidableEq, Repr

/-- The function `status.FromError` on a non-nil error: the status the error
carries and `true`, or a status of code `Unknown` and `false` when the error
carries none. -/
def FromError : GoError → Status × Bool
  | .grpc c m => ({ Code := c, Message := m }, true)
  | .plain m => ({ Code := codes.Unknown, Message := m }, false)
  | .Canceled => ({ Code := codes.Unknown, Message := "context canceled" }, false)
  | .DeadlineExceeded =>
      ({ Code := codes.Unknown, Message := "context deadline exceeded" }, false)
  | .Trace _ => ({ Code := codes.Unknown, Message := "" }, false)
  | .Annotate _ m => ({ Code := codes.Unknown, Message := m }, false)
  | .Wrap _ _ => ({ Code := codes.Unknown, Message := "" }, false)

/-- The function `status.Convert`: `FromError` without the flag. -/
def Convert (e : GoError) : Status := (FromError e).1

end status

/-! ## Context -/

/-- A `context.Context` as the dispatcher observes it: an optional deadline and
the instant at which the caller cancels it, if ever. -/
structure Context where
  deadline : Option Time
  cancelAt : Option Time
  deriving DecidableEq, Repr

namespace Context

/-- The instant from which `ctx.Done()` is closed, with the reason `ctx.Err()`
gives from then on: the cancellation or the deadline, whichever comes first. -/
def done (ctx : Context) : Option (Time × GoError) :=
  match ctx.cancelAt, ctx.deadline with
  | none, none => none
  | some c, none => some (c, .Canceled)
  | none, some d => some (d, .DeadlineExceeded)
  | some c, some d => if c ≤ d then some (c, .Canceled) else some (d, .DeadlineExceeded)

/-- The value of `ctx.Err()` at the instant `now`: nil while the context is not
done. -/
def Err (ctx : Context) (now : Time) : Option GoError :=
  match ctx.done with
  | none => none
  | some (t, reason) => if t ≤ now then some reason else none

end Context

namespace client

/-! ## The dispatcher's data -/

/-- The constant `preDispatchTaskRetryInterval`: one second. -/
def preDispatchTaskRetryInterval : Duration := 1000000000

/-- The struct `TaskDispatcher`; its `client` field is the `Env` below. -/
structure TaskDispatcher where
  retryInterval : Duration
  deriving DecidableEq, Repr

/-- The function `newTaskDispatcher`. -/
def newTaskDispatcher : TaskDispatcher :=
  { retryInterval := preDispatchTaskRetryInterval }

/-- The type `tenant.ProjectInfo`, read through `TenantID()` and `ProjectID()`. -/
structure ProjectInfo where
  TenantID : String
  ProjectID : String
  deriving DecidableEq, Repr

/-- The struct `DispatchTaskArgs`. -/
structure DispatchTaskArgs where
  ProjectInfo : ProjectInfo
  WorkerID : String
  MasterID : String
  WorkerType : Int
  WorkerConfig : List Nat
  deriving DecidableEq, Repr

/-- The message `pb.PreDispatchTaskRequest`. -/
structure PreDispatchTaskRequest where
  TenantId : String
  ProjectId : String
  TaskTypeId : Int
  TaskConfig : List Nat
  MasterId : String
  WorkerId : String
  RequestId : String
  deriving DecidableEq, Repr

/-- The message `pb.ConfirmDispatchTaskRequest`. -/
structure ConfirmDispatchTaskRequest where
  WorkerId : String
  RequestId : String
  deriving DecidableEq, Repr

/-- What a call does that its surroundings can observe. -/
inductive Event
  /-- The call `client.Send` with `CmdPreDispatchTask`. -/
  | sendPreDispatchTask (req : PreDispatchTaskRequest)
  /-- The call `client.Send` with `CmdConfirmDispatchTask`. -/
  | sendConfirmDispatchTask (req : ConfirmDispatchTaskRequest)
  /-- The call of the start hook `startWorkerTimer()`. -/
  | startWorkerTimer
  /-- The call of the abort hook `abortWorker(err)`. -/
  | abortWorker (err : GoError)
  /-- The call `log.Warn`. -/
  | logWarn (msg : String) (err : GoError)
  /-- The call `log.Panic`. -/
  | logPanic (msg : String) (err : GoError)
  /-- The retry loop starts to wait on a timer of duration `d`. -/
  | timerWait (d : Duration)
  deriving DecidableEq, Repr

/-- What the outside answers during one call of `DispatchTask`. -/
structure Env where
  /-- The context of the call. -/
  ctx : Context
  /-- The clock reading when the call starts. -/
  start : Time
  /-- The error of the `n`-th pre-dispatch request (`none` is a nil error). -/
  preDispatch : Nat → Option GoError
  /-- The time the `n`-th pre-dispatch request takes. -/
  preElapsed : Nat → Nat
  /-- The error of the confirm-dispatch request. -/
  confirm : Option GoError
  /-- The time the confirm-dispatch request takes. -/
  confirmElapsed : Nat
  /-- The `n`-th value of `uuid.New().String()`. -/
  uuid : Nat → String
  /-- Which case a `select` takes when the timer and `ctx.Done()` are ready at
  the same instant. -/
  timerWinsRace : Bool

/-- The state threaded through a call. -/
structure St where
  /-- The clock. -/
  now : Time
  /-- The number of pre-dispatch requests sent (and of UUIDs drawn) so far. -/
  sends : Nat
  /-- The events so far, oldest first, each with the instant it happened. -/
  trace : List (Time × Event)
  deriving DecidableEq, Repr

/-- The state in which a call starts. -/
def St.init (env : Env) : St := { now := env.start, sends := 0, trace := [] }

/-- Record an event at the current instant. -/
def St.emit (s : St) (e : Event) : St := { s with trace := s.trace ++ [(s.now, e)] }

/-- Let the clock advance. -/
def St.advance (s : St) (d : Int) : St := { s with now := s.now + d }

/-- How a Go function ends: it returns a value, or it panics. -/
inductive Outcome (α : Type)
  | returned (a : α)
  | panicked (err : GoError)
  deriving DecidableEq, Repr

/-- The second `select` of the retry loop, entered at `now` with a timer of
duration `interval`: the case that is ready first is taken, at the instant it
is ready.  The result is `(none, t)` when the timer fires at `t`, and
`(some e, t)` when `ctx.Done()` is taken at `t` and `ctx.Err()` is `e`. -/
def waitRetry (env : Env) (interval : Duration) (now : Time) : Option GoError × Time :=
  let fire := now + max interval 0
  match env.ctx.done with
  | none => (none, fire)
  | some (c, reason) =>
      let ready := max c now
      if ready < fire then (some reason, ready)
      else if fire < ready then (none, fire)
      else if env.timerWinsRace then (none, fire)
      else (some reason, ready)

/-! ## The dispatcher's functions -/

/-- The method `preDispatchTaskOnce`. -/
def preDispatchTaskOnce (env : Env) (args : DispatchTaskArgs) (s : St) :
    Outcome (String × Bool × Option GoError) × St :=
  let requestID := env.uuid s.sends
  let req : PreDispatchTaskRequest :=
    { TenantId := args.ProjectInfo.TenantID
      ProjectId := args.ProjectInfo.ProjectID
      TaskTypeId := args.WorkerType
      TaskConfig := args.WorkerConfig
      MasterId := args.MasterID
      WorkerId := args.WorkerID
      RequestId := requestID }
  let err := env.preDispatch s.sends
  let s1 : St := { (s.emit (.sendPreDispatchTask req)).advance (env.preElapsed s.sends) with
                   sends := s.sends + 1 }
  match err with
  | some e =>
      match status.FromError e with
      | (_, false) => (.returned ("", false, errors.Trace (some e)), s1)
      | (st, true) =>
          if st.Code = codes.Aborted then
            (.returned ("", false, errors.Trace (some e)), s1)
          else if st.Code = codes.AlreadyExists then
            (.panicked e, s1.emit (.logPanic "Unexpected error" e))
          else
            (.returned ("", true, errors.Trace (some e)),
              s1.emit (.logWarn "PreDispatchTask encountered error, retrying" e))
  | none => (.returned (requestID, false, none), s1)

/-- One iteration of the `for` loop of `preDispatchTaskWithRetry`: `.inl r` when
the method ends in this iteration with `r`, `.inr s1` when the loop goes on
from the state `s1`. -/
def retryIteration (d : TaskDispatcher) (env : Env) (args : DispatchTaskArgs) (s : St) :
    (Outcome (String × Option GoError) × St) ⊕ St :=
  match env.ctx.Err s.now with
  | some ctxErr => .inl (.returned ("", some ctxErr), s)
  | none =>
      match preDispatchTaskOnce env args s with
      | (.panicked e, s1) => .inl (.panicked e, s1)
      | (.returned (requestID, _, none), s1) => .inl (.returned (requestID, none), s1)
      | (.returned (_, false, some err), s1) => .inl (.returned ("", some err), s1)
      | (.returned (_, true, some _), s1) =>
          if (match env.ctx.deadline with
              | some deadline => time.After (time.Add s1.now d.retryInterval) deadline
              | none => false) = true then
            .inl (.returned ("", some (.Annotate .DeadlineExceeded
              "would exceed deadline if waiting")), s1)
          else
            match waitRetry env d.retryInterval s1.now with
            | (some ctxErr, t) =>
                .inl (.returned ("", some (.Wrap .ErrExecutorPreDispatchFailed ctxErr)),
                  { s1.emit (.timerWait d.retryInterval) with now := t })
            | (none, t) => .inr { s1.emit (.timerWait d.retryInterval) with now := t }

/-- The method `preDispatchTaskWithRetry`: the loop runs its iterations until one
ends the method; `none` when the fuel runs out before that. -/
def preDispatchTaskWithRetry (d : TaskDispatcher) (env : Env) (args : DispatchTaskArgs) :
    Nat → St → Option (Outcome (String × Option GoError) × St)
  | 0, _ => none
  | fuel + 1, s =>
      match retryIteration d env args s with
      | .inl r => some r
      | .inr s1 => preDispatchTaskWithRetry d env args fuel s1

/-- The method `confirmDispatchTask`. -/
def confirmDispatchTask (env : Env) (requestID : String) (workerID : String) (s : St) :
    (Bool × Option GoError) × St :=
  let req : ConfirmDispatchTaskRequest := { WorkerId := workerID, RequestId := requestID }
  let err := env.confirm
  let s1 := (s.emit (.sendConfirmDispatchTask req)).advance env.confirmElapsed
  match err with
  | some e =>
      let st := status.Convert e
      if st.Code = codes.Aborted ∨ st.Code = codes.NotFound then
        ((true, errors.Trace (some e)), s1)
      else
        ((false, errors.Trace (some e)), s1)
  | none => ((false, none), s1)

/-- The method `DispatchTask`; the two hooks are recorded as events. -/
def DispatchTask (d : TaskDispatcher) (env : Env) (args : DispatchTaskArgs) (fuel : Nat) :
    Option (Outcome (Option GoError) × St) :=
  match preDispatchTaskWithRetry d env args fuel (St.init env) with
  | none => none
  | some (.panicked e, s1) => some (.panicked e, s1)
  | some (.returned (_, some err), s1) =>
      some (.returned (some (.Wrap .ErrExecutorPreDispatchFailed err)),
        s1.emit (.abortWorker err))
  | some (.returned (requestID, none), s1) =>
      let s2 := s1.emit .startWorkerTimer
      match confirmDispatchTask env requestID args.WorkerID s2 with
      | ((guaranteedFailure, some err), s3) =>
          if guaranteedFailure then
            let errOut := GoError.Wrap .ErrExecutorConfirmDispatchFailed err
            some (.returned (some errOut), s3.emit (.abortWorker errOut))
          else
            some (.returned none,
              s3.emit (.logWarn
                "ConfirmDispatchTask encountered error, but the server's state is undetermined"
                err))
      | ((_, none), s3) => some (.returned none, s3)

/-! ## Reading a trace -/

/-- An invocation of the abort hook. -/
def Event.isAbortWorker : Event → Bool
  | .abortWorker _ => true
  | _ => false

/-- An invocation of the start hook. -/
def Event.isStartWorkerTimer : Event → Bool
  | .startWorkerTimer => true
  | _ => false

/-- A pre-dispatch request. -/
def Event.isSendPreDispatchTask : Event → Bool
  | .sendPreDispatchTask _ => true
  | _ => false

/-- An event of the pre-dispatch phase: a pre-dispatch request, a log line or a
wait on the retry timer. -/
def Event.inPreDispatch : Event → Bool
  | .sendPreDispatchTask _ => true
  | .logWarn _ _ => true
  | .logPanic _ _ => true
  | .timerWait _ => true
  | _ => false

/-- A confirm-dispatch request. -/
def Event.isSendConfirmDispatchTask : Event → Bool
  | .sendConfirmDispatchTask _ => true
  | _ => false

/-- The number of events of a trace that satisfy `p`. -/
def countEvents (p : Event → Bool) (trace : List (Time × Event)) : Nat :=
  trace.countP (fun x => p x.2)

/-- The pre-dispatch request that `args` sends with the request ID `requestID`. -/
def preDispatchRequest (args : DispatchTaskArgs) (requestID : String) :
    PreDispatchTaskRequest :=
  { TenantId := args.ProjectInfo.TenantID
    ProjectId := args.ProjectInfo.ProjectID
    TaskTypeId := args.WorkerType
    TaskConfig := args.WorkerConfig
    MasterId := args.MasterID
    WorkerId := args.WorkerID
    RequestId := requestID }

/-- The state after the start hook and the confirm-dispatch request. -/
def afterConfirm (env : Env) (args : DispatchTaskArgs) (requestID : String) (s1 : St) : St :=
  { now := s1.now + env.confirmElapsed
    sends := s1.sends
    trace := s1.trace ++ [(s1.now, Event.startWorkerTimer),
      (s1.now, Event.sendConfirmDispatchTask
        { WorkerId := args.WorkerID, RequestId := requestID })] }

/-- The code of the structured status an error carries, `none` when it carries
no structured status (the flag of `status.FromError` is false). -/
def structuredCode (e : GoError) : Option Code :=
  if (status.FromError e).2 = true then some (status.FromError e).1.Code else none

/-- The state right after the pre-dispatch request of an attempt that starts in
`s`: the request is in the trace, the clock has advanced by the time the
request took, one more request is counted. -/
def afterPreDispatch (env : Env) (args : DispatchTaskArgs) (s : St) : St :=
  { now := s.now + env.preElapsed s.sends
    sends := s.sends + 1
    trace := s.trace ++
      [(s.now, Event.sendPreDispatchTask (preDispatchRequest args (env.uuid s.sends)))] }

/-- The pre-dispatch requests of a trace, in the order they were sent. -/
def sentRequests : List (Time × Event) → List PreDispatchTaskRequest
  | [] => []
  | (_, .sendPreDispatchTask req) :: rest => req :: sentRequests rest
  | _ :: rest => sentRequests rest

/-- The function `errors.Cause`: the error at the bottom of a chain of traces,
annotations and wraps. -/
def Cause : GoError → GoError
  | .Trace e => Cause e
  | .Annotate e _ => Cause e
  | .Wrap _ e => Cause e
  | e => e

/-- The confirm-dispatch requests of a trace, in the order they were sent. -/
def confirmRequests : List (Time × Event) → List ConfirmDispatchTaskRequest
  | [] => []
  | (_, .sendConfirmDispatchTask req) :: rest => req :: confirmRequests rest
  | _ :: rest => confirmRequests rest

/-- The errors the abort hook was invoked with, in the order of the calls. -/
def abortErrors : List (Time × Event) → List GoError
  | [] => []
  | (_, .abortWorker err) :: rest => err :: abortErrors rest
  | _ :: rest => abortErrors rest

/-- The instants at which the pre-dispatch requests of a trace were sent. -/
def attemptTimes : List (Time × Event) → List Time
  | [] => []
  | (t, .sendPreDispatchTask _) :: rest => t :: attemptTimes rest
  | _ :: rest => attemptTimes rest

/-! ## Concrete inputs -/

/-- Arguments of a dispatch, for concrete runs. -/
def exampleArgs : DispatchTaskArgs :=
  { ProjectInfo := { TenantID := "tenant", ProjectID := "project" }
    WorkerID := "worker-1"
    MasterID := "master-1"
    WorkerType := 1
    WorkerConfig := [1, 2, 3] }

/-- An environment for concrete runs: the call starts at instant 0, requests take
no time, the `n`-th UUID is the numeral of `n`. -/
def exampleEnv (ctx : Context) (preDispatch : Nat → Option GoError)
    (confirm : Option GoError) : Env :=
  { ctx := ctx
    start := 0
    preDispatch := preDispatch
    preElapsed := fun _ => 0
    confirm := confirm
    confirmElapsed := 0
    uuid := fun n => toString n
    timerWinsRace := true }

/-- A context without deadline that is never cancelled (`context.Background()`). -/
def background : Context := { deadline := none, cancelAt := none }

/-- An outcome sequence: two retryable failures, then a success. -/
def twoFailuresThenSuccess : Nat → Option GoError
  | 0 => some (.grpc codes.Unavailable "unavailable")
  | 1 => some (.grpc codes.Internal "internal")
  | _ => none

/-- An outcome sequence: every attempt fails retryably. -/
def alwaysUnavailable : Nat → Option GoError :=
  fun _ => some (.grpc codes.Unavailable "unavailable")

/-- An outcome sequence: a retryable failure, then the status AlreadyExists. -/
def failureThenAlreadyExists : Nat → Option GoError
  | 0 => some (.grpc codes.Unavailable "unavailable")
  | _ => some (.grpc codes.AlreadyExists "exists")

/-- An outcome sequence: the first attempt fails with the status Aborted. -/
def alwaysAborted : Nat → Option GoError :=
  fun _ => some (.grpc codes.Aborted "aborted")

/-- A UUID generator that never gives the same value twice: the `n`-th value is
a run of `n + 1` letters. -/
def uniqueIDs (n : Nat) : String := String.mk (List.replicate (n + 1) 'x')

/-- A context that the caller cancels at the instant `cancelAt`. -/
def cancelledAt (cancelAt : Time) : Context := { deadline := none, cancelAt := some cancelAt }

/-- A context with the deadline `deadline` that is never cancelled. -/
def withDeadline (deadline : Time) : Context := { deadline := some deadline, cancelAt := none }

end client

namespace v3

/-! ## The balance scheduler's data -/

/-- The type `model.TableID` (an int64). -/
abbrev TableID := Int

/-- The type `model.CaptureID` (a string). -/
abbrev CaptureID := String

/-- Modelled from the spec: the declaration of `CaptureState` is not among the
sources; a capture has "a state from {Idle, Stopping, other operational
states}". -/
inductive CaptureState
  | Idle
  | Stopping
  | other (tag : Nat)
  deriving DecidableEq, Repr

/-- The constant `CaptureStateStopping`. -/
def CaptureStateStopping : CaptureState := .Stopping

/-- Modelled from the spec: the declaration of `CaptureStatus` is not among the
sources; a capture is "a worker process identity plus a state". -/
structure CaptureStatus where
  ID : CaptureID
  State : CaptureState
  deriving DecidableEq, Repr

/-- Modelled from the spec: the declaration of `ReplicationSet` is not among the
sources; it is the "per replicated-table record {TableID, PrimaryCaptureID,
SecondaryCaptureID}". -/
structure ReplicationSet where
  TableID : TableID
  Primary : CaptureID
  Secondary : CaptureID
  deriving DecidableEq, Repr

/-- Modelled from the spec: the declaration of `moveTable` is not among the
sources; a move decision is "MoveTable{TableID, DestinationCapture}". -/
structure moveTable where
  TableID : TableID
  DestCapture : CaptureID
  deriving DecidableEq, Repr

/-- Modelled from the spec: the declaration of `scheduleTask` is not among the
sources; it is "a transient, tagged variant describing one scheduling
decision".  The field `moveTable` is the one the balance scheduler sets;
`others` lists the remaining fields of the struct that are set (not nil). -/
structure scheduleTask where
  moveTable : Option moveTable
  others : List String
  deriving DecidableEq, Repr

/-- A Go map as the list of its entries; the scheduler only looks keys up and
ranges over the entries. -/
abbrev GoMap (κ ν : Type) := List (κ × ν)

/-- The lookup `m[k]` of a Go map, with the comma-ok flag as an `Option`. -/
def GoMap.get {κ ν : Type} [DecidableEq κ] (m : GoMap κ ν) (k : κ) : Option ν :=
  match m with
  | [] => none
  | (k1, v) :: rest => if k1 = k then some v else GoMap.get rest k

/-- The assignment `m[k] = v` of a Go map. -/
def GoMap.set {κ ν : Type} [DecidableEq κ] (m : GoMap κ ν) (k : κ) (v : ν) : GoMap κ ν :=
  match m with
  | [] => [(k, v)]
  | (k1, v1) :: rest => if k1 = k then (k, v) :: rest else (k1, v1) :: GoMap.set rest k v

/-- The function `newBalanceMoveTables`, which is not among the sources, as a
parameter: from the random source, the captures, the replication sets and the
concurrency budget it gives the move decisions and the random source it leaves
behind.  Its last argument, a changefeed ID, is always the zero value
`model.ChangeFeedID{}` and is left out. -/
abbrev Planner (Rand : Type) :=
  Rand → GoMap CaptureID CaptureStatus → GoMap TableID ReplicationSet → Int →
    List moveTable × Rand

/-- The arguments of one invocation of the move planner. -/
structure PlannerCall (Rand : Type) where
  random : Rand
  captures : GoMap CaptureID CaptureStatus
  replications : GoMap TableID ReplicationSet
  maxTaskConcurrency : Int

/-- The struct `balanceScheduler`. -/
structure balanceScheduler (Rand : Type) where
  random : Rand
  lastRebalanceTime : Time
  checkBalanceInterval : Duration
  forceBalance : Bool
  maxTaskConcurrency : Int

/-- What one call of `Schedule` leaves behind: the returned tasks, the scheduler
afterwards, and the invocations of the move planner it made. -/
structure ScheduleResult (Rand : Type) where
  tasks : List scheduleTask
  sched : balanceScheduler Rand
  plannerCalls : List (PlannerCall Rand)

/-! ## The balance scheduler's functions -/

/-- The function `newBalanceScheduler`, from the random source it seeds. -/
def newBalanceScheduler {Rand : Type} (random : Rand) (interval : Duration)
    (concurrency : Int) : balanceScheduler Rand :=
  { random := random
    lastRebalanceTime := 0
    checkBalanceInterval := interval
    forceBalance := false
    maxTaskConcurrency := concurrency }

/-- The first loop of `buildBalanceMoveTables`: the tables grouped by the
captures that serve them. -/
def groupCaptureTables (replications : GoMap TableID ReplicationSet) :
    List TableID → GoMap CaptureID (List TableID) → GoMap CaptureID (List TableID)
  | [], captureTables => captureTables
  | tableID :: rest, captureTables =>
      match replications.get tableID with
      | none => groupCaptureTables replications rest captureTables
      | some rep =>
          let ct1 :=
            if rep.Primary ≠ "" then
              captureTables.set rep.Primary
                ((captureTables.get rep.Primary).getD [] ++ [tableID])
            else captureTables
          let ct2 :=
            if rep.Secondary ≠ "" then
              ct1.set rep.Secondary ((ct1.get rep.Secondary).getD [] ++ [tableID])
            else ct1
          groupCaptureTables replications rest ct2

/-- The second loop of `buildBalanceMoveTables`: one task per move. -/
def wrapMoves : List moveTable → List scheduleTask
  | [] => []
  | m :: rest => { moveTable := some m, others := [] } :: wrapMoves rest

/-- The function `buildBalanceMoveTables`, with the random source it leaves
behind and the planner invocation it makes. -/
def buildBalanceMoveTables {Rand : Type} (planner : Planner Rand) (random : Rand)
    (currentTables : List TableID) (captures : GoMap CaptureID CaptureStatus)
    (replications : GoMap TableID ReplicationSet) (maxTaskConcurrency : Int) :
    List scheduleTask × Rand × List (PlannerCall Rand) :=
  let _captureTables := groupCaptureTables replications currentTables []
  let (moves, random1) := planner random captures replications maxTaskConcurrency
  (wrapMoves moves, random1,
    [{ random := random, captures := captures, replications := replications,
       maxTaskConcurrency := maxTaskConcurrency }])

/-- The loop of `Schedule` over the captures: whether one of them is stopping. -/
def anyStopping : GoMap CaptureID CaptureStatus → Bool
  | [] => false
  | (_, capture) :: rest =>
      if capture.State = CaptureStateStopping then true else anyStopping rest

/-- The part of `Schedule` after the interval gate: the check for a stopping
capture, the call of `buildBalanceMoveTables` and the update of
`forceBalance`. -/
def scheduleAfterGate {Rand : Type} (planner : Planner Rand) (b : balanceScheduler Rand)
    (currentTables : List TableID) (captures : GoMap CaptureID CaptureStatus)
    (replications : GoMap TableID ReplicationSet) : ScheduleResult Rand :=
  if anyStopping captures then
    { tasks := [], sched := b, plannerCalls := [] }
  else
    match buildBalanceMoveTables planner b.random currentTables captures replications
        b.maxTaskConcurrency with
    | (tasks, random1, calls) =>
        { tasks := tasks
          sched := { b with random := random1, forceBalance := decide (tasks.length ≠ 0) }
          plannerCalls := calls }

/-- The method `Schedule`; `now` is what `time.Now()` reads, `b` the scheduler
before the call. -/
def Schedule {Rand : Type} (planner : Planner Rand) (now : Time) (b : balanceScheduler Rand)
    (_checkpointTs : Nat) (currentTables : List TableID)
    (captures : GoMap CaptureID CaptureStatus)
    (replications : GoMap TableID ReplicationSet) : ScheduleResult Rand :=
  if b.forceBalance = false then
    if time.Sub now b.lastRebalanceTime < b.checkBalanceInterval then
      { tasks := [], sched := b, plannerCalls := [] }
    else
      scheduleAfterGate planner { b with lastRebalanceTime := now } currentTables captures
        replications
  else
    scheduleAfterGate planner b currentTables captures replications

/-- The arguments and the clock reading of one call of `Schedule`. -/
structure ScheduleInput where
  now : Time
  checkpointTs : Nat
  currentTables : List TableID
  captures : GoMap CaptureID CaptureStatus
  replications : GoMap TableID ReplicationSet

/-- A sequence of calls of `Schedule` on one scheduler, each call starting from
the scheduler the call before left: the results of the calls, in order. -/
def scheduleSequence {Rand : Type} (planner : Planner Rand) :
    balanceScheduler Rand → List ScheduleInput → List (ScheduleResult Rand)
  | _, [] => []
  | b, i :: rest =>
      (Schedule planner i.now b i.checkpointTs i.currentTables i.captures i.replications) ::
        scheduleSequence planner
          (Schedule planner i.now b i.checkpointTs i.currentTables i.captures
            i.replications).sched rest

/-! ## Concrete inputs -/

/-- A move planner for concrete runs, over a counter as random source: it moves
the tables of the replication sets to the capture "capture-b", at most
`maxTaskConcurrency` of them, and steps the counter. -/
def examplePlanner : Planner Nat :=
  fun random _captures replications maxTaskConcurrency =>
    ((replications.map
        (fun r => ({ TableID := r.1, DestCapture := "capture-b" } : moveTable))).take
      maxTaskConcurrency.toNat, random + 1)

/-- A move planner for concrete runs that never finds a table to move. -/
def idlePlanner : Planner Nat :=
  fun random _captures _replications _maxTaskConcurrency => ([], random + 1)

/-- Two captures, none of them stopping. -/
def exampleCaptures : GoMap CaptureID CaptureStatus :=
  [("capture-a", { ID := "capture-a", State := .Idle }),
    ("capture-b", { ID := "capture-b", State := .Idle })]

/-- Two captures, the second of them stopping. -/
def exampleCapturesStopping : GoMap CaptureID CaptureStatus :=
  [("capture-a", { ID := "capture-a", State := .Idle }),
    ("capture-b", { ID := "capture-b", State := .Stopping })]

/-- Two tables, both served by "capture-a". -/
def exampleReplications : GoMap TableID ReplicationSet :=
  [(1, { TableID := 1, Primary := "capture-a", Secondary := "" }),
    (2, { TableID := 2, Primary := "capture-a", Secondary := "" })]

/-- A scheduler that last rebalanced at instant 100, with an interval of 50 and a
budget of one move. -/
def exampleScheduler (forceBalance : Bool) : balanceScheduler Nat :=
  { random := 7
    lastRebalanceTime := 100
    checkBalanceInterval := 50
    forceBalance := forceBalance
    maxTaskConcurrency := 1 }

/-- Three ticks for concrete runs: at the instants 200, 201 and 500. -/
def exampleTicks : List ScheduleInput :=
  [{ now := 200, checkpointTs := 0, currentTables := [1, 2], captures := exampleCaptures,
     replications := exampleReplications },
   { now := 201, checkpointTs := 0, currentTables := [1, 2],
     captures := exampleCapturesStopping, replications := exampleReplications },
   { now := 500, checkpointTs := 0, currentTables := [1, 2], captures := exampleCaptures,
     replications := exampleReplications }]

/-- A tick at the instant `now`, with the captures `captures` and the replication
sets `replications`, for concrete runs. -/
def exampleTick (now : Time) (captures : GoMap CaptureID CaptureStatus)
    (replications : GoMap TableID ReplicationSet) : ScheduleInput :=
  { now := now, checkpointTs := 0, currentTables := [1, 2], captures := captures,
    replications := replications }

end v3

/-! # Theorems -/

namespace client

/-- C4: `confirmDispatchTask` reports a guaranteed failure exactly when the
request failed with an error whose status code is Aborted or NotFound; any
other error gives `false` with a non-nil error, no error gives `false` with a
nil error; it never gives `true` with a nil error, and it sends exactly one
request. -/
theorem confirmDispatchTask_classifies (env : Env) (requestID workerID : String) (s : St) :
    ((confirmDispatchTask env requestID workerID s).1.1 = true ↔
        ∃ e, env.confirm = some e ∧
          ((status.Convert e).Code = codes.Aborted ∨
            (status.Convert e).Code = codes.NotFound)) ∧
      (∀ e, env.confirm = some e →
        ¬ ((status.Convert e).Code = codes.Aborted ∨
            (status.Convert e).Code = codes.NotFound) →
        (confirmDispatchTask env requestID workerID s).1 = (false, some (GoError.Trace e))) ∧
      (env.confirm = none →
        (confirmDispatchTask env requestID workerID s).1 = (false, none)) ∧
      ¬ ((confirmDispatchTask env requestID workerID s).1.1 = true ∧
          (confirmDispatchTask env requestID workerID s).1.2 = none) ∧
      (confirmDispatchTask env requestID workerID s).2.trace =
        s.trace ++
          [(s.now, Event.sendConfirmDispatchTask
            { WorkerId := workerID, RequestId := requestID })] := by
  unfold confirmDispatchTask
  cases h : env.confirm with
  | none => simp [St.emit, St.advance]
  | some e =>
      by_cases hc : (status.Convert e).Code = codes.Aborted ∨
          (status.Convert e).Code = codes.NotFound
      · have hc2 := hc
        simp only [if_pos hc]
        refine ⟨?_, ?_, ?_, ?_, ?_⟩
        · simp [hc2]
        · intro e1 he1 hn
          cases he1
          exact absurd hc hn
        · simp
        · simp [errors.Trace]
        · simp [St.emit, St.advance]
      · simp only [if_neg hc]
        refine ⟨?_, ?_, ?_, ?_, ?_⟩
        · simp [hc]
        · intro e1 he1 _
          cases he1
          rfl
        · simp
        · simp
        · simp [St.emit, St.advance]


theorem preDispatchTaskOnce_trace (env : Env) (args : DispatchTaskArgs) (s : St) :
    ∃ added, (preDispatchTaskOnce env args s).2.trace = s.trace ++ added ∧
      ∀ x ∈ added, x.2.inPreDispatch = true := by
  unfold preDispatchTaskOnce
  cases env.preDispatch s.sends with
  | none => simp [St.emit, St.advance, Event.inPreDispatch]
  | some e =>
      cases e with
      | grpc c m =>
          simp only [status.FromError]
          split_ifs
          · simp [St.emit, St.advance, Event.inPreDispatch]
          all_goals simp only [St.emit, St.advance, List.append_assoc]
          all_goals refine ⟨_, rfl, ?_⟩
          all_goals intro x hx
          all_goals simp only [List.singleton_append, List.mem_cons, List.mem_singleton,
            List.not_mem_nil, or_false] at hx
          all_goals rcases hx with rfl | rfl <;> rfl
      | _ => simp [St.emit, St.advance, Event.inPreDispatch, status.FromError]

theorem retryIteration_trace (d : TaskDispatcher) (env : Env) (args : DispatchTaskArgs)
    (s : St) :
    (∀ o s1, retryIteration d env args s = .inl (o, s1) →
      ∃ added, s1.trace = s.trace ++ added ∧ ∀ x ∈ added, x.2.inPreDispatch = true) ∧
    (∀ s1, retryIteration d env args s = .inr s1 →
      ∃ added, s1.trace = s.trace ++ added ∧ ∀ x ∈ added, x.2.inPreDispatch = true) := by
  obtain ⟨add1, hadd1, hin1⟩ := preDispatchTaskOnce_trace env args s
  have hext : ∀ (dur : Duration),
      ∃ added, (s.trace ++ add1) ++ [((preDispatchTaskOnce env args s).2.now,
          Event.timerWait dur)] = s.trace ++ added ∧
        ∀ x ∈ added, x.2.inPreDispatch = true := by
    intro dur
    refine ⟨add1 ++ [_], (List.append_assoc _ _ _), ?_⟩
    intro x hx
    rcases List.mem_append.1 hx with hx | hx
    · exact hin1 x hx
    · rw [List.mem_singleton] at hx
      subst hx
      rfl
  unfold retryIteration
  split
  · exact ⟨fun o s1 h => by cases h; exact ⟨[], by simp, by simp⟩, fun s1 h => by cases h⟩
  · split
    all_goals rename_i heq
    all_goals rw [heq] at hadd1
    all_goals simp only at hadd1
    · exact ⟨fun o s1 h => by cases h; exact ⟨add1, hadd1, hin1⟩, fun s1 h => by cases h⟩
    · exact ⟨fun o s1 h => by cases h; exact ⟨add1, hadd1, hin1⟩, fun s1 h => by cases h⟩
    · exact ⟨fun o s1 h => by cases h; exact ⟨add1, hadd1, hin1⟩, fun s1 h => by cases h⟩
    · rw [heq] at hext
      simp only at hext
      split
      · exact ⟨fun o s1 h => by cases h; exact ⟨add1, hadd1, hin1⟩, fun s1 h => by cases h⟩
      · split
        · refine ⟨fun o s1 h => ?_, fun s1 h => by cases h⟩
          cases h
          simpa [St.emit, hadd1] using hext d.retryInterval
        · refine ⟨fun o s1 h => (by cases h), fun s1 h => ?_⟩
          cases h
          simpa [St.emit, hadd1] using hext d.retryInterval

theorem preDispatchTaskWithRetry_trace (d : TaskDispatcher) (env : Env) (args : DispatchTaskArgs) :
    ∀ (fuel : Nat) (s : St) (o : Outcome (String × Option GoError)) (s1 : St),
      preDispatchTaskWithRetry d env args fuel s = some (o, s1) →
      ∃ added, s1.trace = s.trace ++ added ∧ ∀ x ∈ added, x.2.inPreDispatch = true := by
  intro fuel
  induction fuel with
  | zero => intro s o s1 h; simp [preDispatchTaskWithRetry] at h
  | succ n ih =>
      intro s o s1 h
      unfold preDispatchTaskWithRetry at h
      split at h
      · rename_i r heq
        cases h
        exact (retryIteration_trace d env args s).1 _ _ heq
      · rename_i s2 heq
        obtain ⟨a1, h1, hin1⟩ := (retryIteration_trace d env args s).2 _ heq
        obtain ⟨a2, h2, hin2⟩ := ih _ _ _ h
        refine ⟨a1 ++ a2, by rw [h2, h1, List.append_assoc], ?_⟩
        intro x hx
        rcases List.mem_append.1 hx with hx | hx
        · exact hin1 x hx
        · exact hin2 x hx


theorem countEvents_append (p : Event → Bool) (l1 l2 : List (Time × Event)) :
    countEvents p (l1 ++ l2) = countEvents p l1 + countEvents p l2 := by
  simp [countEvents, List.countP_append]

theorem countEvents_inPreDispatch (p : Event → Bool)
    (hp : ∀ e, e.inPreDispatch = true → p e = false) (l : List (Time × Event))
    (hl : ∀ x ∈ l, x.2.inPreDispatch = true) : countEvents p l = 0 := by
  unfold countEvents
  rw [List.countP_eq_zero]
  intro x hx
  simp [hp x.2 (hl x hx)]

theorem isAbortWorker_of_inPreDispatch (e : Event) (h : e.inPreDispatch = true) :
    e.isAbortWorker = false := by
  cases e <;> simp_all [Event.inPreDispatch, Event.isAbortWorker]

theorem isStartWorkerTimer_of_inPreDispatch (e : Event) (h : e.inPreDispatch = true) :
    e.isStartWorkerTimer = false := by
  cases e <;> simp_all [Event.inPreDispatch, Event.isStartWorkerTimer]

theorem isSendConfirmDispatchTask_of_inPreDispatch (e : Event) (h : e.inPreDispatch = true) :
    e.isSendConfirmDispatchTask = false := by
  cases e <;> simp_all [Event.inPreDispatch, Event.isSendConfirmDispatchTask]

/-- The trace of a state whose trace is empty at the start of the call. -/
theorem preDispatchTaskWithRetry_init_trace (d : TaskDispatcher) (env : Env)
    (args : DispatchTaskArgs) (fuel : Nat) (o : Outcome (String × Option GoError)) (s1 : St)
    (h : preDispatchTaskWithRetry d env args fuel (St.init env) = some (o, s1)) :
    ∀ x ∈ s1.trace, x.2.inPreDispatch = true := by
  obtain ⟨added, hadd, hin⟩ := preDispatchTaskWithRetry_trace d env args fuel _ _ _ h
  simp only [St.init, List.nil_append] at hadd
  rw [hadd]
  exact hin

/-- The result of `confirmDispatchTask`, case by case. -/
theorem confirmDispatchTask_eq (env : Env) (requestID workerID : String) (s : St) :
    confirmDispatchTask env requestID workerID s =
      ((match env.confirm with
        | none => (false, none)
        | some e =>
            (decide ((status.Convert e).Code = codes.Aborted ∨
              (status.Convert e).Code = codes.NotFound), some (GoError.Trace e))),
        { now := s.now + env.confirmElapsed
          sends := s.sends
          trace := s.trace ++ [(s.now, Event.sendConfirmDispatchTask
            { WorkerId := workerID, RequestId := requestID })] }) := by
  unfold confirmDispatchTask
  cases env.confirm with
  | none => rfl
  | some e =>
      by_cases hc : (status.Convert e).Code = codes.Aborted ∨
          (status.Convert e).Code = codes.NotFound
      · simp [hc, St.emit, St.advance, errors.Trace]
      · simp [hc, St.emit, St.advance, errors.Trace]

theorem countEvents_nil (p : Event → Bool) : countEvents p [] = 0 := rfl

theorem countEvents_cons (p : Event → Bool) (t : Time) (e : Event) (l : List (Time × Event)) :
    countEvents p ((t, e) :: l) = countEvents p l + if p e = true then 1 else 0 := by
  simp [countEvents, List.countP_cons]

theorem DispatchTask_of_pre_error (d : TaskDispatcher) (env : Env) (args : DispatchTaskArgs)
    (fuel : Nat) (requestID : String) (err : GoError) (s1 : St)
    (hpre : preDispatchTaskWithRetry d env args fuel (St.init env) =
      some (.returned (requestID, some err), s1)) :
    DispatchTask d env args fuel =
      some (.returned (some (.Wrap .ErrExecutorPreDispatchFailed err)),
        s1.emit (.abortWorker err)) := by
  unfold DispatchTask
  rw [hpre]

theorem DispatchTask_of_pre_success (d : TaskDispatcher) (env : Env) (args : DispatchTaskArgs)
    (fuel : Nat) (requestID : String) (s1 : St)
    (hpre : preDispatchTaskWithRetry d env args fuel (St.init env) =
      some (.returned (requestID, none), s1)) :
    DispatchTask d env args fuel =
      match env.confirm with
      | none => some (.returned none, afterConfirm env args requestID s1)
      | some e =>
          if (status.Convert e).Code = codes.Aborted ∨ (status.Convert e).Code = codes.NotFound
          then
            some (.returned (some (.Wrap .ErrExecutorConfirmDispatchFailed (.Trace e))),
              (afterConfirm env args requestID s1).emit
                (.abortWorker (.Wrap .ErrExecutorConfirmDispatchFailed (.Trace e))))
          else
            some (.returned none,
              (afterConfirm env args requestID s1).emit
                (.logWarn
                  "ConfirmDispatchTask encountered error, but the server's state is undetermined"
                  (.Trace e))) := by
  unfold DispatchTask
  rw [hpre]
  simp only [confirmDispatchTask_eq]
  cases env.confirm with
  | none => simp [afterConfirm, St.emit]
  | some e =>
      by_cases hc : (status.Convert e).Code = codes.Aborted ∨
          (status.Convert e).Code = codes.NotFound
      · simp [hc, afterConfirm, St.emit]
      · simp [hc, afterConfirm, St.emit]

/-- C1: when a call of `DispatchTask` returns, the returned error is non-nil if
and only if the abort hook was invoked during the call; with a non-nil error
the abort hook was invoked exactly once, with a nil error not at all. -/
theorem DispatchTask_error_iff_abort (d : TaskDispatcher) (env : Env) (args : DispatchTaskArgs)
    (fuel : Nat) (r : Option GoError) (s : St)
    (h : DispatchTask d env args fuel = some (.returned r, s)) :
    (r ≠ none ↔ ∃ x ∈ s.trace, x.2.isAbortWorker = true) ∧
      (r ≠ none → countEvents Event.isAbortWorker s.trace = 1) ∧
      (r = none → countEvents Event.isAbortWorker s.trace = 0) := by
  have key : (r ≠ none → countEvents Event.isAbortWorker s.trace = 1) ∧
      (r = none → countEvents Event.isAbortWorker s.trace = 0) := by
    cases hpre : preDispatchTaskWithRetry d env args fuel (St.init env) with
    | none => simp [DispatchTask, hpre] at h
    | some res =>
        obtain ⟨o, s1⟩ := res
        have h0 := countEvents_inPreDispatch _ isAbortWorker_of_inPreDispatch _
          (preDispatchTaskWithRetry_init_trace d env args fuel _ _ hpre)
        cases o with
        | panicked e => simp [DispatchTask, hpre] at h
        | returned v =>
            obtain ⟨rid, err⟩ := v
            cases err with
            | some err =>
                rw [DispatchTask_of_pre_error d env args fuel rid err s1 hpre] at h
                cases h
                simp [St.emit, countEvents_append, h0, countEvents_cons, countEvents_nil,
                  Event.isAbortWorker]
            | none =>
                rw [DispatchTask_of_pre_success d env args fuel rid s1 hpre] at h
                cases hc : env.confirm with
                | none =>
                    simp only [hc] at h
                    cases h
                    simp [afterConfirm, countEvents_append, h0, countEvents_cons, countEvents_nil,
                      Event.isAbortWorker]
                | some e =>
                    simp only [hc] at h
                    split_ifs at h
                    · cases h
                      simp [afterConfirm, St.emit, countEvents_append, h0, countEvents_cons, countEvents_nil,
                        Event.isAbortWorker]
                    · cases h
                      simp [afterConfirm, St.emit, countEvents_append, h0, countEvents_cons, countEvents_nil,
                        Event.isAbortWorker]
  refine ⟨⟨fun hr => ?_, fun hx => ?_⟩, key⟩
  · have h1 := key.1 hr
    have hpos : 0 < List.countP (fun x => x.2.isAbortWorker) s.trace := by
      unfold countEvents at h1
      omega
    obtain ⟨x, hx, hp⟩ := List.countP_pos_iff.1 hpos
    exact ⟨x, hx, hp⟩
  · intro hr
    have h0 := key.2 hr
    obtain ⟨x, hx, hp⟩ := hx
    have hpos : 0 < List.countP (fun x => x.2.isAbortWorker) s.trace :=
      List.countP_pos_iff.2 ⟨x, hx, hp⟩
    unfold countEvents at h0
    omega


/-! ## One pre-dispatch attempt, case by case -/

theorem structuredCode_eq_none (e : GoError) (h : structuredCode e = none) :
    (status.FromError e).2 = false := by
  unfold structuredCode at h
  split_ifs at h with h1
  simpa using h1

theorem structuredCode_eq_some (e : GoError) (c : Code) (h : structuredCode e = some c) :
    ∃ m, e = GoError.grpc c m := by
  cases e <;> simp_all [structuredCode, status.FromError]

theorem preDispatchTaskOnce_success (env : Env) (args : DispatchTaskArgs) (s : St)
    (h : env.preDispatch s.sends = none) :
    preDispatchTaskOnce env args s =
      (.returned (env.uuid s.sends, false, none), afterPreDispatch env args s) := by
  unfold preDispatchTaskOnce
  simp [h, afterPreDispatch, preDispatchRequest, St.emit, St.advance]

theorem preDispatchTaskOnce_unstructured (env : Env) (args : DispatchTaskArgs) (s : St)
    (e : GoError) (h : env.preDispatch s.sends = some e) (hc : structuredCode e = none) :
    preDispatchTaskOnce env args s =
      (.returned ("", false, some (.Trace e)), afterPreDispatch env args s) := by
  unfold preDispatchTaskOnce
  cases e <;>
    simp_all [structuredCode, status.FromError, afterPreDispatch, preDispatchRequest, St.emit,
      St.advance, errors.Trace]

theorem preDispatchTaskOnce_aborted (env : Env) (args : DispatchTaskArgs) (s : St)
    (e : GoError) (h : env.preDispatch s.sends = some e)
    (hc : structuredCode e = some codes.Aborted) :
    preDispatchTaskOnce env args s =
      (.returned ("", false, some (.Trace e)), afterPreDispatch env args s) := by
  obtain ⟨m, rfl⟩ := structuredCode_eq_some e _ hc
  unfold preDispatchTaskOnce
  simp [h, status.FromError, afterPreDispatch, preDispatchRequest, St.emit,
      St.advance, errors.Trace]

theorem preDispatchTaskOnce_alreadyExists (env : Env) (args : DispatchTaskArgs) (s : St)
    (e : GoError) (h : env.preDispatch s.sends = some e)
    (hc : structuredCode e = some codes.AlreadyExists) :
    preDispatchTaskOnce env args s =
      (.panicked e, (afterPreDispatch env args s).emit (.logPanic "Unexpected error" e)) := by
  obtain ⟨m, rfl⟩ := structuredCode_eq_some e _ hc
  unfold preDispatchTaskOnce
  simp [h, status.FromError, afterPreDispatch, preDispatchRequest, St.emit,
      St.advance, codes.AlreadyExists, codes.Aborted]

theorem preDispatchTaskOnce_retryable (env : Env) (args : DispatchTaskArgs) (s : St)
    (e : GoError) (c : Code) (h : env.preDispatch s.sends = some e)
    (hc : structuredCode e = some c) (h1 : c ≠ codes.Aborted) (h2 : c ≠ codes.AlreadyExists) :
    preDispatchTaskOnce env args s =
      (.returned ("", true, some (.Trace e)),
        (afterPreDispatch env args s).emit
          (.logWarn "PreDispatchTask encountered error, retrying" e)) := by
  obtain ⟨m, rfl⟩ := structuredCode_eq_some e _ hc
  unfold preDispatchTaskOnce
  simp [h, status.FromError, afterPreDispatch, preDispatchRequest, St.emit,
      St.advance, errors.Trace, h1, h2]

/-- C5: when the pre-dispatch request does not fail with a structured
AlreadyExists status, `preDispatchTaskOnce` returns, with `shouldRetry = true`
if and only if the request failed with an error that carries a structured
status whose code is not Aborted; an error without structured status and a
structured Aborted status give `shouldRetry = false`, the (traced) error and an
empty request ID; a success gives the request ID that was sent, `false` and a
nil error. -/
theorem preDispatchTaskOnce_classifies (env : Env) (args : DispatchTaskArgs) (s : St)
    (hne : ∀ e, env.preDispatch s.sends = some e →
      structuredCode e ≠ some codes.AlreadyExists) :
    ∃ requestID shouldRetry retErr,
      (preDispatchTaskOnce env args s).1 = .returned (requestID, shouldRetry, retErr) ∧
      (shouldRetry = true ↔
        ∃ e c, env.preDispatch s.sends = some e ∧ structuredCode e = some c ∧
          c ≠ codes.Aborted) ∧
      (∀ e, env.preDispatch s.sends = some e →
        (structuredCode e = none ∨ structuredCode e = some codes.Aborted) →
        shouldRetry = false ∧ retErr = some (.Trace e) ∧ requestID = "") ∧
      (env.preDispatch s.sends = none →
        requestID = env.uuid s.sends ∧ shouldRetry = false ∧ retErr = none ∧
        (preDispatchTaskOnce env args s).2.trace =
          s.trace ++ [(s.now, Event.sendPreDispatchTask (preDispatchRequest args requestID))]) := by
  cases h : env.preDispatch s.sends with
  | none =>
      rw [preDispatchTaskOnce_success env args s h]
      exact ⟨_, _, _, rfl, by simp, by simp, fun _ => ⟨rfl, rfl, rfl, rfl⟩⟩
  | some e =>
      cases hc : structuredCode e with
      | none =>
          rw [preDispatchTaskOnce_unstructured env args s e h hc]
          refine ⟨_, _, _, rfl, ?_, ?_, by simp⟩
          · simp only [Bool.false_eq_true, false_iff, not_exists, not_and]
            intro e1 c1 he1 hc1
            cases he1
            rw [hc] at hc1
            cases hc1
          · intro e1 he1 _
            cases he1
            exact ⟨rfl, rfl, rfl⟩
      | some c =>
          by_cases hA : c = codes.Aborted
          · subst hA
            rw [preDispatchTaskOnce_aborted env args s e h hc]
            refine ⟨_, _, _, rfl, ?_, ?_, by simp⟩
            · simp only [Bool.false_eq_true, false_iff, not_exists, not_and]
              intro e1 c1 he1 hc1
              cases he1
              rw [hc] at hc1
              cases hc1
              simp
            · intro e1 he1 _
              cases he1
              exact ⟨rfl, rfl, rfl⟩
          · have hE : c ≠ codes.AlreadyExists := by
              intro hE
              subst hE
              exact hne e h hc
            rw [preDispatchTaskOnce_retryable env args s e c h hc hA hE]
            refine ⟨_, _, _, rfl, ?_, ?_, by simp⟩
            · simp only [true_iff]
              exact ⟨e, c, rfl, hc, hA⟩
            · intro e1 he1 hcases
              cases he1
              rw [hc] at hcases
              rcases hcases with h0 | h0
              · cases h0
              · cases h0
                exact absurd rfl hA

theorem preDispatchTaskOnce_classifies_witness :
    ∃ requestID shouldRetry retErr,
      (preDispatchTaskOnce (exampleEnv background
          (fun _ => some (.grpc codes.Unavailable "down")) none) exampleArgs
          { now := 0, sends := 0, trace := [] }).1 =
        .returned (requestID, shouldRetry, retErr) ∧ shouldRetry = true :=
  have h := preDispatchTaskOnce_classifies (exampleEnv background
      (fun _ => some (.grpc codes.Unavailable "down")) none) exampleArgs
      { now := 0, sends := 0, trace := [] } (by
        intro e he
        cases he
        decide)
  let ⟨r, sr, er, h1, h2, _⟩ := h
  ⟨r, sr, er, h1, h2.2 ⟨_, _, rfl, rfl, by decide⟩⟩


/-! ## One iteration of the retry loop, case by case -/

theorem retryIteration_ctxDone (d : TaskDispatcher) (env : Env) (args : DispatchTaskArgs)
    (s : St) (ctxErr : GoError) (h : env.ctx.Err s.now = some ctxErr) :
    retryIteration d env args s = .inl (.returned ("", some ctxErr), s) := by
  unfold retryIteration
  rw [h]

theorem retryIteration_success (d : TaskDispatcher) (env : Env) (args : DispatchTaskArgs)
    (s : St) (hctx : env.ctx.Err s.now = none) (h : env.preDispatch s.sends = none) :
    retryIteration d env args s =
      .inl (.returned (env.uuid s.sends, none), afterPreDispatch env args s) := by
  unfold retryIteration
  rw [hctx, preDispatchTaskOnce_success env args s h]

theorem retryIteration_unstructured (d : TaskDispatcher) (env : Env) (args : DispatchTaskArgs)
    (s : St) (e : GoError) (hctx : env.ctx.Err s.now = none)
    (h : env.preDispatch s.sends = some e) (hc : structuredCode e = none) :
    retryIteration d env args s =
      .inl (.returned ("", some (.Trace e)), afterPreDispatch env args s) := by
  unfold retryIteration
  rw [hctx, preDispatchTaskOnce_unstructured env args s e h hc]

theorem retryIteration_aborted (d : TaskDispatcher) (env : Env) (args : DispatchTaskArgs)
    (s : St) (e : GoError) (hctx : env.ctx.Err s.now = none)
    (h : env.preDispatch s.sends = some e) (hc : structuredCode e = some codes.Aborted) :
    retryIteration d env args s =
      .inl (.returned ("", some (.Trace e)), afterPreDispatch env args s) := by
  unfold retryIteration
  rw [hctx, preDispatchTaskOnce_aborted env args s e h hc]

theorem retryIteration_alreadyExists (d : TaskDispatcher) (env : Env)
    (args : DispatchTaskArgs) (s : St) (e : GoError) (hctx : env.ctx.Err s.now = none)
    (h : env.preDispatch s.sends = some e)
    (hc : structuredCode e = some codes.AlreadyExists) :
    retryIteration d env args s =
      .inl (.panicked e,
        (afterPreDispatch env args s).emit (.logPanic "Unexpected error" e)) := by
  unfold retryIteration
  rw [hctx, preDispatchTaskOnce_alreadyExists env args s e h hc]

theorem retryIteration_retryable (d : TaskDispatcher) (env : Env) (args : DispatchTaskArgs)
    (s : St) (e : GoError) (c : Code) (hctx : env.ctx.Err s.now = none)
    (h : env.preDispatch s.sends = some e) (hc : structuredCode e = some c)
    (h1 : c ≠ codes.Aborted) (h2 : c ≠ codes.AlreadyExists) :
    retryIteration d env args s =
      if (match env.ctx.deadline with
          | some deadline =>
              time.After (time.Add (s.now + env.preElapsed s.sends) d.retryInterval) deadline
          | none => false) = true then
        .inl (.returned ("", some (.Annotate .DeadlineExceeded
            "would exceed deadline if waiting")),
          (afterPreDispatch env args s).emit
            (.logWarn "PreDispatchTask encountered error, retrying" e))
      else
        match waitRetry env d.retryInterval (s.now + env.preElapsed s.sends) with
        | (some ctxErr, t) =>
            .inl (.returned ("", some (.Wrap .ErrExecutorPreDispatchFailed ctxErr)),
              { ((afterPreDispatch env args s).emit
                  (.logWarn "PreDispatchTask encountered error, retrying" e)).emit
                  (.timerWait d.retryInterval) with now := t })
        | (none, t) =>
            .inr { ((afterPreDispatch env args s).emit
                  (.logWarn "PreDispatchTask encountered error, retrying" e)).emit
                  (.timerWait d.retryInterval) with now := t } := by
  unfold retryIteration
  rw [hctx, preDispatchTaskOnce_retryable env args s e c h hc h1 h2]
  rfl

/-- The loop with fuel left takes one iteration. -/
theorem preDispatchTaskWithRetry_succ (d : TaskDispatcher) (env : Env)
    (args : DispatchTaskArgs) (fuel : Nat) (s : St) :
    preDispatchTaskWithRetry d env args (fuel + 1) s =
      match retryIteration d env args s with
      | .inl r => some r
      | .inr s1 => preDispatchTaskWithRetry d env args fuel s1 := rfl

/-- A result of the loop does not depend on the fuel that was left over. -/
theorem preDispatchTaskWithRetry_mono (d : TaskDispatcher) (env : Env)
    (args : DispatchTaskArgs) :
    ∀ (fuel : Nat) (s : St) (r : Outcome (String × Option GoError) × St),
      preDispatchTaskWithRetry d env args fuel s = some r →
      ∀ more, preDispatchTaskWithRetry d env args (fuel + more) s = some r := by
  intro fuel
  induction fuel with
  | zero => intro s r h; simp [preDispatchTaskWithRetry] at h
  | succ n ih =>
      intro s r h more
      rw [show n + 1 + more = (n + more) + 1 by omega, preDispatchTaskWithRetry_succ]
      rw [preDispatchTaskWithRetry_succ] at h
      cases hit : retryIteration d env args s with
      | inl r1 =>
          rw [hit] at h
          exact h
      | inr s1 =>
          rw [hit] at h
          exact ih s1 r h more


theorem sentRequests_append (l1 l2 : List (Time × Event)) :
    sentRequests (l1 ++ l2) = sentRequests l1 ++ sentRequests l2 := by
  induction l1 with
  | nil => rfl
  | cons x rest ih =>
      obtain ⟨t, e⟩ := x
      cases e <;> simp [sentRequests, ih]

theorem background_Err (env : Env) (h : env.ctx = background) (now : Time) :
    env.ctx.Err now = none := by
  rw [h]
  rfl

theorem waitRetry_background (env : Env) (h : env.ctx = background) (interval : Duration)
    (now : Time) : waitRetry env interval now = (none, now + max interval 0) := by
  unfold waitRetry
  rw [h]
  rfl

/-- The retry loop without cancellation and deadline, from a state that has made
`s.sends` attempts, when `n` more retryable failures come before the first
attempt that is a success or is not retried. -/
theorem preDispatchTaskWithRetry_stops_from (d : TaskDispatcher) (env : Env)
    (args : DispatchTaskArgs) (k : Nat) (hctx : env.ctx = background)
    (hbefore : ∀ j, j < k → ∃ e c, env.preDispatch j = some e ∧ structuredCode e = some c ∧
      c ≠ codes.Aborted ∧ c ≠ codes.AlreadyExists)
    (hk : env.preDispatch k = none ∨ ∃ e, env.preDispatch k = some e ∧
      (structuredCode e = none ∨ structuredCode e = some codes.Aborted)) :
    ∀ (n : Nat) (s : St) (fuel : Nat), s.sends + n = k → n < fuel →
      ∃ s1, preDispatchTaskWithRetry d env args fuel s =
          some (.returned (match env.preDispatch k with
            | none => (env.uuid k, none)
            | some e => ("", some (.Trace e))), s1) ∧
        s1.sends = k + 1 ∧
        sentRequests s1.trace = sentRequests s.trace ++
          (List.range' s.sends (n + 1)).map (fun j => preDispatchRequest args (env.uuid j)) := by
  intro n
  induction n with
  | zero =>
      intro s fuel hs hfuel
      obtain ⟨f, rfl⟩ : ∃ f, fuel = f + 1 := ⟨fuel - 1, by omega⟩
      simp only [Nat.add_zero] at hs
      rw [preDispatchTaskWithRetry_succ]
      rcases hk with hk | ⟨e, hk, hc⟩
      · rw [retryIteration_success d env args s (background_Err env hctx _) (hs ▸ hk)]
        refine ⟨_, by rw [hk, hs], by simp [afterPreDispatch, hs], ?_⟩
        simp [afterPreDispatch, sentRequests_append, sentRequests]
      · have hit : retryIteration d env args s =
            .inl (.returned ("", some (.Trace e)), afterPreDispatch env args s) := by
          rcases hc with hc | hc
          · exact retryIteration_unstructured d env args s e (background_Err env hctx _)
              (hs ▸ hk) hc
          · exact retryIteration_aborted d env args s e (background_Err env hctx _)
              (hs ▸ hk) hc
        rw [hit]
        refine ⟨_, by rw [hk], by simp [afterPreDispatch, hs], ?_⟩
        simp [afterPreDispatch, sentRequests_append, sentRequests]
  | succ n ih =>
      intro s fuel hs hfuel
      obtain ⟨f, rfl⟩ : ∃ f, fuel = f + 1 := ⟨fuel - 1, by omega⟩
      obtain ⟨e, c, he, hc, h1, h2⟩ := hbefore s.sends (by omega)
      rw [preDispatchTaskWithRetry_succ,
        retryIteration_retryable d env args s e c (background_Err env hctx _) he hc h1 h2]
      simp only [hctx, background, waitRetry_background env hctx]
      simp only [Bool.false_eq_true, if_false]
      obtain ⟨s1, hrun, hsends, hreq⟩ := ih
        { ((afterPreDispatch env args s).emit
            (.logWarn "PreDispatchTask encountered error, retrying" e)).emit
            (.timerWait d.retryInterval) with
          now := s.now + env.preElapsed s.sends + max d.retryInterval 0 } f
        (by simp [afterPreDispatch, St.emit]; omega) (by omega)
      refine ⟨s1, hrun, hsends, ?_⟩
      rw [hreq]
      simp [afterPreDispatch, St.emit, sentRequests_append, sentRequests, List.range'_succ]

/-- C9: without cancellation and without deadline, when the attempts `0 .. k-1`
fail retryably and attempt `k` is a success or a failure that is not retried
(no structured status, or the status Aborted), `preDispatchTaskWithRetry`
returns (with any fuel above `k`) at attempt `k`: the request ID of attempt `k`
and a nil error on success, an empty request ID and the error of attempt `k`
otherwise; it has sent exactly the requests of the attempts `0 .. k`, in
order, and none after. -/
theorem preDispatchTaskWithRetry_stops_at_first (d : TaskDispatcher) (env : Env)
    (args : DispatchTaskArgs) (k : Nat) (hctx : env.ctx = background)
    (hbefore : ∀ j, j < k → ∃ e c, env.preDispatch j = some e ∧ structuredCode e = some c ∧
      c ≠ codes.Aborted ∧ c ≠ codes.AlreadyExists)
    (hk : env.preDispatch k = none ∨ ∃ e, env.preDispatch k = some e ∧
      (structuredCode e = none ∨ structuredCode e = some codes.Aborted))
    (fuel : Nat) (hfuel : k < fuel) :
    ∃ s1, preDispatchTaskWithRetry d env args fuel (St.init env) =
        some (.returned (match env.preDispatch k with
          | none => (env.uuid k, none)
          | some e => ("", some (.Trace e))), s1) ∧
      s1.sends = k + 1 ∧
      sentRequests s1.trace =
        (List.range (k + 1)).map (fun j => preDispatchRequest args (env.uuid j)) := by
  obtain ⟨s1, hrun, hsends, hreq⟩ :=
    preDispatchTaskWithRetry_stops_from d env args k hctx hbefore hk k (St.init env) fuel
      (by simp [St.init]) hfuel
  refine ⟨s1, hrun, hsends, ?_⟩
  rw [hreq]
  simp [St.init, sentRequests, List.range_eq_range']

theorem preDispatchTaskWithRetry_stops_at_first_witness :
    ∃ s1, preDispatchTaskWithRetry newTaskDispatcher
        (exampleEnv background twoFailuresThenSuccess none) exampleArgs 3
        (St.init (exampleEnv background twoFailuresThenSuccess none)) =
        some (.returned ("2", none), s1) ∧
      s1.sends = 3 ∧
      sentRequests s1.trace =
        [preDispatchRequest exampleArgs "0", preDispatchRequest exampleArgs "1",
          preDispatchRequest exampleArgs "2"] :=
  preDispatchTaskWithRetry_stops_at_first newTaskDispatcher
    (exampleEnv background twoFailuresThenSuccess none) exampleArgs 2 rfl
    (by
      intro j hj
      match j, hj with
      | 0, _ => exact ⟨_, _, rfl, rfl, by decide, by decide⟩
      | 1, _ => exact ⟨_, _, rfl, rfl, by decide, by decide⟩)
    (Or.inl rfl) 3 (by decide)


theorem withDeadline_Err (env : Env) (D : Time) (h : env.ctx = withDeadline D) (now : Time) :
    env.ctx.Err now = if D ≤ now then some GoError.DeadlineExceeded else none := by
  rw [h]
  rfl

theorem waitRetry_withDeadline (env : Env) (D : Time) (h : env.ctx = withDeadline D)
    (interval : Duration) (now : Time) (hI : 0 < interval) (hnow : now + interval ≤ D) :
    waitRetry env interval now =
      if now + interval < D then (none, now + interval)
      else if env.timerWinsRace = true then (none, now + interval)
      else (some GoError.DeadlineExceeded, D) := by
  unfold waitRetry
  rw [h]
  simp only [withDeadline, Context.done]
  have h1 : max interval 0 = interval := max_eq_left (le_of_lt hI)
  have h2 : max D now = D := max_eq_left (by linarith)
  rw [h1, h2]
  have h3 : ¬ D < now + interval := not_lt.2 hnow
  simp only [h3, if_false]

theorem preDispatchTaskWithRetry_deadline_from (d : TaskDispatcher) (env : Env)
    (args : DispatchTaskArgs) (D : Time) (hI : 0 < d.retryInterval)
    (hctx : env.ctx = withDeadline D) (hel : ∀ n, env.preElapsed n = 0)
    (hretry : ∀ n, ∃ e c, env.preDispatch n = some e ∧ structuredCode e = some c ∧
      c ≠ codes.Aborted ∧ c ≠ codes.AlreadyExists) :
    ∀ (n : Nat) (s : St) (fuel : Nat), D - s.now < n * d.retryInterval → n < fuel →
      ∃ err s1 added,
        preDispatchTaskWithRetry d env args fuel s = some (.returned ("", some err), s1) ∧
        Cause err = GoError.DeadlineExceeded ∧
        s1.sends ≤ s.sends + n ∧
        s1.trace = s.trace ++ added ∧
        (∀ t dur, (t, Event.timerWait dur) ∈ added →
          dur = d.retryInterval ∧ t + d.retryInterval ≤ D) ∧
        (∀ t req, (t, Event.sendPreDispatchTask req) ∈ added → D < t + d.retryInterval →
          s1.now = t ∧
          err = .Annotate .DeadlineExceeded "would exceed deadline if waiting") := by
  have hdone : ∀ (s : St) (f : Nat), D ≤ s.now →
      ∃ err s1 added,
        preDispatchTaskWithRetry d env args (f + 1) s = some (.returned ("", some err), s1) ∧
        Cause err = GoError.DeadlineExceeded ∧
        s1.sends ≤ s.sends ∧
        s1.trace = s.trace ++ added ∧
        (∀ t dur, (t, Event.timerWait dur) ∈ added →
          dur = d.retryInterval ∧ t + d.retryInterval ≤ D) ∧
        (∀ t req, (t, Event.sendPreDispatchTask req) ∈ added → D < t + d.retryInterval →
          s1.now = t ∧
          err = .Annotate .DeadlineExceeded "would exceed deadline if waiting") := by
    intro s f hD
    refine ⟨.DeadlineExceeded, s, [], ?_, rfl, le_refl _, by simp, by simp, by simp⟩
    rw [preDispatchTaskWithRetry_succ,
      retryIteration_ctxDone d env args s .DeadlineExceeded
        (by rw [withDeadline_Err env D hctx, if_pos hD])]
  intro n
  induction n with
  | zero =>
      intro s fuel hs hfuel
      obtain ⟨f, rfl⟩ : ∃ f, fuel = f + 1 := ⟨fuel - 1, by omega⟩
      simp only [Nat.cast_zero, zero_mul] at hs
      obtain ⟨err, s1, added, h1, h2, h3, h4⟩ := hdone s f (by linarith)
      exact ⟨err, s1, added, h1, h2, by omega, h4⟩
  | succ n ih =>
      intro s fuel hs hfuel
      obtain ⟨f, rfl⟩ : ∃ f, fuel = f + 1 := ⟨fuel - 1, by omega⟩
      by_cases hD : D ≤ s.now
      · obtain ⟨err, s1, added, h1, h2, h3, h4⟩ := hdone s f hD
        exact ⟨err, s1, added, h1, h2, by omega, h4⟩
      · obtain ⟨e, c, he, hc, hc1, hc2⟩ := hretry s.sends
        rw [preDispatchTaskWithRetry_succ,
          retryIteration_retryable d env args s e c
            (by rw [withDeadline_Err env D hctx, if_neg hD]) he hc hc1 hc2]
        simp only [afterPreDispatch, St.emit, hel, Nat.cast_zero, add_zero, List.append_assoc,
          List.singleton_append]
        have hdl : env.ctx.deadline = some D := by rw [hctx]; rfl
        simp only [hdl, time.After, time.Add, decide_eq_true_eq]
        by_cases hx : D < s.now + d.retryInterval
        · simp only [if_pos hx]
          refine ⟨_, _, [(s.now, Event.sendPreDispatchTask
              (preDispatchRequest args (env.uuid s.sends))),
            (s.now, Event.logWarn "PreDispatchTask encountered error, retrying" e)],
            rfl, rfl, ?_, rfl, ?_, ?_⟩
          · simp only
            omega
          · intro t dur hmem
            simp at hmem
          · intro t req hmem _
            simp at hmem
            simp [hmem.1]
        · simp only [if_neg hx]
          rw [waitRetry_withDeadline env D hctx _ _ hI (not_lt.1 hx)]
          have hcont : ∃ err s1 added,
              preDispatchTaskWithRetry d env args f
                { now := s.now + d.retryInterval
                  sends := s.sends + 1
                  trace := s.trace ++ [(s.now, Event.sendPreDispatchTask
                      (preDispatchRequest args (env.uuid s.sends))),
                    (s.now, Event.logWarn "PreDispatchTask encountered error, retrying" e),
                    (s.now, Event.timerWait d.retryInterval)] } =
                some (.returned ("", some err), s1) ∧
              Cause err = GoError.DeadlineExceeded ∧
              s1.sends ≤ s.sends + (n + 1) ∧
              s1.trace = s.trace ++ added ∧
              (∀ t dur, (t, Event.timerWait dur) ∈ added →
                dur = d.retryInterval ∧ t + d.retryInterval ≤ D) ∧
              (∀ t req, (t, Event.sendPreDispatchTask req) ∈ added →
                D < t + d.retryInterval →
                s1.now = t ∧
                err = .Annotate .DeadlineExceeded "would exceed deadline if waiting") := by
            obtain ⟨err, s1, added, h1, h2, h3, h4, h5, h6⟩ := ih
              { now := s.now + d.retryInterval
                sends := s.sends + 1
                trace := s.trace ++ [(s.now, Event.sendPreDispatchTask
                    (preDispatchRequest args (env.uuid s.sends))),
                  (s.now, Event.logWarn "PreDispatchTask encountered error, retrying" e),
                  (s.now, Event.timerWait d.retryInterval)] } f
              (by
                simp only
                push_cast at hs
                linarith) (by omega)
            refine ⟨err, s1, [(s.now, Event.sendPreDispatchTask
                (preDispatchRequest args (env.uuid s.sends))),
              (s.now, Event.logWarn "PreDispatchTask encountered error, retrying" e),
              (s.now, Event.timerWait d.retryInterval)] ++ added, h1, h2, ?_, ?_, ?_, ?_⟩
            · simp only at h3
              omega
            · rw [h4, List.append_assoc]
            · intro t dur hmem
              rcases List.mem_append.1 hmem with hm | hm
              · simp at hm
                exact ⟨hm.2, by rw [hm.1]; exact not_lt.1 hx⟩
              · exact h5 t dur hm
            · intro t req hmem hlt
              rcases List.mem_append.1 hmem with hm | hm
              · simp at hm
                rw [hm.1] at hlt
                exact absurd hlt hx
              · exact h6 t req hm hlt
          by_cases hlt : s.now + d.retryInterval < D
          · simp only [if_pos hlt]
            exact hcont
          · simp only [if_neg hlt]
            by_cases hrace : env.timerWinsRace = true
            · simp only [if_pos hrace]
              exact hcont
            · simp only [if_neg hrace]
              refine ⟨_, _, [(s.now, Event.sendPreDispatchTask
                  (preDispatchRequest args (env.uuid s.sends))),
                (s.now, Event.logWarn "PreDispatchTask encountered error, retrying" e),
                (s.now, Event.timerWait d.retryInterval)],
                rfl, rfl, ?_, rfl, ?_, ?_⟩
              · simp only
                omega
              · intro t dur hmem
                simp at hmem
                exact ⟨hmem.2, by rw [hmem.1]; exact not_lt.1 hx⟩
              · intro t req hmem hlt2
                simp at hmem
                rw [hmem.1] at hlt2
                exact absurd hlt2 hx

/-- C10: with a deadline `D` and no cancellation, a retry interval `I > 0`, a
call that starts at instant 0, requests that take no time and attempts that
all fail retryably, `preDispatchTaskWithRetry` returns (with any fuel above
`floor(D / I) + 1`) an error whose cause is the deadline-exceeded error, after
at most `floor(D / I) + 1` attempts; every wait it began lasts `I` and ends no
later than `D`; an attempt at an instant `t` with `t + I > D` is followed by
the return, at `t` and without waiting, of the error "would exceed deadline
if waiting". -/
theorem preDispatchTaskWithRetry_deadline (d : TaskDispatcher) (env : Env)
    (args : DispatchTaskArgs) (D : Time) (hI : 0 < d.retryInterval)
    (hctx : env.ctx = withDeadline D) (hstart : env.start = 0)
    (hel : ∀ n, env.preElapsed n = 0)
    (hretry : ∀ n, ∃ e c, env.preDispatch n = some e ∧ structuredCode e = some c ∧
      c ≠ codes.Aborted ∧ c ≠ codes.AlreadyExists)
    (fuel : Nat) (hfuel : (D / d.retryInterval + 1).toNat < fuel) :
    ∃ err s1,
      preDispatchTaskWithRetry d env args fuel (St.init env) =
        some (.returned ("", some err), s1) ∧
      Cause err = GoError.DeadlineExceeded ∧
      s1.sends ≤ (D / d.retryInterval + 1).toNat ∧
      (∀ t dur, (t, Event.timerWait dur) ∈ s1.trace →
        dur = d.retryInterval ∧ t + d.retryInterval ≤ D) ∧
      (∀ t req, (t, Event.sendPreDispatchTask req) ∈ s1.trace → D < t + d.retryInterval →
        s1.now = t ∧ err = .Annotate .DeadlineExceeded "would exceed deadline if waiting") := by
  have hbudget : D - (St.init env).now <
      ((D / d.retryInterval + 1).toNat : Int) * d.retryInterval := by
    simp only [St.init, hstart, sub_zero]
    by_cases hq : 0 ≤ D / d.retryInterval + 1
    · rw [Int.toNat_of_nonneg hq]
      exact Int.lt_ediv_add_one_mul_self D hI
    · have hz : (D / d.retryInterval + 1).toNat = 0 := Int.toNat_eq_zero.2 (by linarith)
      rw [hz]
      simp only [Nat.cast_zero, zero_mul]
      by_contra hD
      exact hq (by
        have := Int.ediv_nonneg (not_lt.1 hD) (le_of_lt hI)
        linarith)
  obtain ⟨err, s1, added, h1, h2, h3, h4, h5, h6⟩ :=
    preDispatchTaskWithRetry_deadline_from d env args D hI hctx hel hretry _ (St.init env) fuel
      hbudget hfuel
  have htr : s1.trace = added := by
    rw [h4]
    simp [St.init]
  refine ⟨err, s1, h1, h2, ?_, ?_, ?_⟩
  · simpa [St.init] using h3
  · rw [htr]
    exact h5
  · rw [htr]
    exact h6

theorem preDispatchTaskWithRetry_deadline_witness :
    (∃ err s1,
      preDispatchTaskWithRetry newTaskDispatcher
          (exampleEnv (withDeadline 2500000000) alwaysUnavailable none) exampleArgs 4
          (St.init (exampleEnv (withDeadline 2500000000) alwaysUnavailable none)) =
        some (.returned ("", some err), s1) ∧
      Cause err = GoError.DeadlineExceeded ∧
      s1.sends ≤ 3 ∧
      (∀ t dur, (t, Event.timerWait dur) ∈ s1.trace →
        dur = 1000000000 ∧ t + 1000000000 ≤ 2500000000) ∧
      (∀ t req, (t, Event.sendPreDispatchTask req) ∈ s1.trace →
        (2500000000 : Int) < t + 1000000000 →
        s1.now = t ∧ err = .Annotate .DeadlineExceeded "would exceed deadline if waiting")) ∧
    (preDispatchTaskWithRetry newTaskDispatcher
        (exampleEnv (withDeadline 2500000000) alwaysUnavailable none) exampleArgs 4
        (St.init (exampleEnv (withDeadline 2500000000) alwaysUnavailable none))).map
      (fun r => (r.1, r.2.now, r.2.sends, attemptTimes r.2.trace)) =
      some (.returned ("", some (.Annotate .DeadlineExceeded
        "would exceed deadline if waiting")), 2000000000, 3, [0, 1000000000, 2000000000]) :=
  ⟨preDispatchTaskWithRetry_deadline newTaskDispatcher
      (exampleEnv (withDeadline 2500000000) alwaysUnavailable none) exampleArgs 2500000000
      (by decide) rfl rfl (fun _ => rfl)
      (fun _ => ⟨_, _, rfl, rfl, by decide, by decide⟩) 4 (by decide),
    by decide⟩


/-- The five ways an iteration of the retry loop can go. -/
theorem retryIteration_cases (d : TaskDispatcher) (env : Env) (args : DispatchTaskArgs)
    (s : St) :
    (∃ ctxErr, env.ctx.Err s.now = some ctxErr ∧
      retryIteration d env args s = .inl (.returned ("", some ctxErr), s)) ∨
    (env.ctx.Err s.now = none ∧ env.preDispatch s.sends = none ∧
      retryIteration d env args s =
        .inl (.returned (env.uuid s.sends, none), afterPreDispatch env args s)) ∨
    (∃ e, env.ctx.Err s.now = none ∧ env.preDispatch s.sends = some e ∧
      (structuredCode e = none ∨ structuredCode e = some codes.Aborted) ∧
      retryIteration d env args s =
        .inl (.returned ("", some (.Trace e)), afterPreDispatch env args s)) ∨
    (∃ e, env.ctx.Err s.now = none ∧ env.preDispatch s.sends = some e ∧
      structuredCode e = some codes.AlreadyExists ∧
      retryIteration d env args s =
        .inl (.panicked e,
          (afterPreDispatch env args s).emit (.logPanic "Unexpected error" e))) ∨
    (∃ e c, env.ctx.Err s.now = none ∧ env.preDispatch s.sends = some e ∧
      structuredCode e = some c ∧ c ≠ codes.Aborted ∧ c ≠ codes.AlreadyExists ∧
      ((∃ err, retryIteration d env args s =
          .inl (.returned ("", some err),
            (afterPreDispatch env args s).emit
              (.logWarn "PreDispatchTask encountered error, retrying" e))) ∨
        (∃ err t, retryIteration d env args s =
          .inl (.returned ("", some err),
            { ((afterPreDispatch env args s).emit
                (.logWarn "PreDispatchTask encountered error, retrying" e)).emit
                (.timerWait d.retryInterval) with now := t })) ∨
        (∃ t, retryIteration d env args s =
          .inr { ((afterPreDispatch env args s).emit
                (.logWarn "PreDispatchTask encountered error, retrying" e)).emit
                (.timerWait d.retryInterval) with now := t }))) := by
  cases hctx : env.ctx.Err s.now with
  | some ctxErr => exact Or.inl ⟨ctxErr, rfl, retryIteration_ctxDone d env args s ctxErr hctx⟩
  | none =>
      right
      cases hp : env.preDispatch s.sends with
      | none => exact Or.inl ⟨rfl, rfl, retryIteration_success d env args s hctx hp⟩
      | some e =>
          right
          cases hc : structuredCode e with
          | none =>
              exact Or.inl ⟨e, rfl, rfl, Or.inl hc,
                retryIteration_unstructured d env args s e hctx hp hc⟩
          | some c =>
              by_cases hA : c = codes.Aborted
              · subst hA
                exact Or.inl ⟨e, rfl, rfl, Or.inr hc,
                  retryIteration_aborted d env args s e hctx hp hc⟩
              · right
                by_cases hE : c = codes.AlreadyExists
                · subst hE
                  exact Or.inl ⟨e, rfl, rfl, hc,
                    retryIteration_alreadyExists d env args s e hctx hp hc⟩
                · right
                  refine ⟨e, c, rfl, rfl, hc, hA, hE, ?_⟩
                  rw [retryIteration_retryable d env args s e c hctx hp hc hA hE]
                  split_ifs
                  · exact Or.inl ⟨_, rfl⟩
                  · split
                    · exact Or.inr (Or.inl ⟨_, _, rfl⟩)
                    · exact Or.inr (Or.inr ⟨_, rfl⟩)

/-- An iteration that ends the loop with a nil error made a successful attempt. -/
theorem retryIteration_nil_error (d : TaskDispatcher) (env : Env) (args : DispatchTaskArgs)
    (s : St) (requestID : String) (s1 : St)
    (h : retryIteration d env args s = .inl (.returned (requestID, none), s1)) :
    env.preDispatch s.sends = none ∧ requestID = env.uuid s.sends ∧
      s1.sends = s.sends + 1 := by
  rcases retryIteration_cases d env args s with ⟨_, _, h1⟩ | ⟨_, hp, h1⟩ | ⟨_, _, _, _, h1⟩ |
    ⟨_, _, _, _, h1⟩ | ⟨_, _, _, _, _, _, _, ⟨_, h1⟩ | ⟨_, _, h1⟩ | ⟨_, h1⟩⟩
  all_goals rw [h1] at h
  all_goals simp only [Sum.inl.injEq, Prod.mk.injEq, Outcome.returned.injEq, reduceCtorEq,
    false_and, and_false] at h
  obtain ⟨⟨h2, _⟩, h3⟩ := h
  exact ⟨hp, h2.symm, by rw [← h3]; rfl⟩

/-- An iteration after which the loop goes on has sent one request. -/
theorem retryIteration_continue_sends (d : TaskDispatcher) (env : Env)
    (args : DispatchTaskArgs) (s s1 : St) (h : retryIteration d env args s = .inr s1) :
    s1.sends = s.sends + 1 := by
  rcases retryIteration_cases d env args s with ⟨_, _, h1⟩ | ⟨_, hp, h1⟩ | ⟨_, _, _, _, h1⟩ |
    ⟨_, _, _, _, h1⟩ | ⟨_, _, _, _, _, _, _, ⟨_, h1⟩ | ⟨_, _, h1⟩ | ⟨_, h1⟩⟩
  all_goals rw [h1] at h
  all_goals simp only [Sum.inr.injEq, reduceCtorEq] at h
  rw [← h]
  rfl

/-- A success of the retry loop is the success of its last attempt. -/
theorem preDispatchTaskWithRetry_nil_error (d : TaskDispatcher) (env : Env)
    (args : DispatchTaskArgs) :
    ∀ (fuel : Nat) (s : St) (requestID : String) (s1 : St),
      preDispatchTaskWithRetry d env args fuel s = some (.returned (requestID, none), s1) →
      ∃ n, s.sends ≤ n ∧ s1.sends = n + 1 ∧ env.preDispatch n = none ∧
        requestID = env.uuid n := by
  intro fuel
  induction fuel with
  | zero => intro s r s1 h; simp [preDispatchTaskWithRetry] at h
  | succ f ih =>
      intro s r s1 h
      rw [preDispatchTaskWithRetry_succ] at h
      cases hit : retryIteration d env args s with
      | inl res =>
          rw [hit] at h
          simp only [Option.some.injEq] at h
          subst h
          obtain ⟨h1, h2, h3⟩ := retryIteration_nil_error d env args s r s1 hit
          exact ⟨s.sends, le_refl _, h3, h1, h2⟩
      | inr s2 =>
          rw [hit] at h
          obtain ⟨n, hn1, hn2, hn3, hn4⟩ := ih s2 r s1 h
          have := retryIteration_continue_sends d env args s s2 hit
          exact ⟨n, by omega, hn2, hn3, hn4⟩

theorem isSendPreDispatchTask_abortWorker (e : GoError) :
    (Event.abortWorker e).isSendPreDispatchTask = false := rfl

/-- C2: when pre-dispatch succeeds, `DispatchTask` returns, and its trace is the
trace of the pre-dispatch phase, then the start hook, then the confirm-dispatch
request, then a rest without start hook, confirm-dispatch or pre-dispatch
request: the start hook and the confirm-dispatch request occur exactly once
each, the start hook after the last pre-dispatch request and right before the
confirm-dispatch request, whatever that request returns.  And a call whose
trace has a confirm-dispatch request is one whose pre-dispatch phase succeeded,
by an attempt of this call that returned no error. -/
theorem DispatchTask_start_between_phases (d : TaskDispatcher) (env : Env)
    (args : DispatchTaskArgs) (fuel : Nat) :
    (∀ requestID s1,
      preDispatchTaskWithRetry d env args fuel (St.init env) =
        some (.returned (requestID, none), s1) →
      ∃ r s post, DispatchTask d env args fuel = some (.returned r, s) ∧
        s.trace = s1.trace ++
          [(s1.now, Event.startWorkerTimer),
            (s1.now, Event.sendConfirmDispatchTask
              { WorkerId := args.WorkerID, RequestId := requestID })] ++ post ∧
        (∀ x ∈ s1.trace, x.2.isStartWorkerTimer = false ∧
          x.2.isSendConfirmDispatchTask = false) ∧
        (∀ x ∈ post, x.2.isStartWorkerTimer = false ∧
          x.2.isSendConfirmDispatchTask = false ∧ x.2.isSendPreDispatchTask = false) ∧
        countEvents Event.isStartWorkerTimer s.trace = 1 ∧
        countEvents Event.isSendConfirmDispatchTask s.trace = 1) ∧
    (∀ o s, DispatchTask d env args fuel = some (o, s) →
      (∃ x ∈ s.trace, x.2.isSendConfirmDispatchTask = true) →
      ∃ requestID s1 n,
        preDispatchTaskWithRetry d env args fuel (St.init env) =
          some (.returned (requestID, none), s1) ∧
        n < s1.sends ∧ env.preDispatch n = none ∧ requestID = env.uuid n) := by
  constructor
  · intro requestID s1 hpre
    have hin := preDispatchTaskWithRetry_init_trace d env args fuel _ _ hpre
    have hs0 := countEvents_inPreDispatch _ isStartWorkerTimer_of_inPreDispatch _ hin
    have hc0 := countEvents_inPreDispatch _ isSendConfirmDispatchTask_of_inPreDispatch _ hin
    have hpreonly : ∀ x ∈ s1.trace, x.2.isStartWorkerTimer = false ∧
        x.2.isSendConfirmDispatchTask = false := fun x hx =>
      ⟨isStartWorkerTimer_of_inPreDispatch _ (hin x hx),
        isSendConfirmDispatchTask_of_inPreDispatch _ (hin x hx)⟩
    rw [DispatchTask_of_pre_success d env args fuel requestID s1 hpre]
    cases hconf : env.confirm with
    | none =>
        refine ⟨_, _, [], rfl, by simp [afterConfirm], hpreonly, by simp, ?_, ?_⟩
        · simp [afterConfirm, countEvents_append, hs0, countEvents_cons, countEvents_nil,
            Event.isStartWorkerTimer]
        · simp [afterConfirm, countEvents_append, hc0, countEvents_cons, countEvents_nil,
            Event.isSendConfirmDispatchTask]
    | some e =>
        by_cases hg : (status.Convert e).Code = codes.Aborted ∨
            (status.Convert e).Code = codes.NotFound
        · simp only [if_pos hg]
          refine ⟨_, _, [(s1.now + env.confirmElapsed, Event.abortWorker
              (.Wrap .ErrExecutorConfirmDispatchFailed (.Trace e)))], rfl,
            by simp [afterConfirm, St.emit], hpreonly, ?_, ?_, ?_⟩
          · intro x hx
            rw [List.mem_singleton] at hx
            subst hx
            exact ⟨rfl, rfl, rfl⟩
          · simp [afterConfirm, St.emit, countEvents_append, hs0, countEvents_cons,
              countEvents_nil, Event.isStartWorkerTimer]
          · simp [afterConfirm, St.emit, countEvents_append, hc0, countEvents_cons,
              countEvents_nil, Event.isSendConfirmDispatchTask]
        · simp only [if_neg hg]
          refine ⟨_, _, [(s1.now + env.confirmElapsed, Event.logWarn
              "ConfirmDispatchTask encountered error, but the server's state is undetermined"
              (.Trace e))], rfl,
            by simp [afterConfirm, St.emit], hpreonly, ?_, ?_, ?_⟩
          · intro x hx
            rw [List.mem_singleton] at hx
            subst hx
            exact ⟨rfl, rfl, rfl⟩
          · simp [afterConfirm, St.emit, countEvents_append, hs0, countEvents_cons,
              countEvents_nil, Event.isStartWorkerTimer]
          · simp [afterConfirm, St.emit, countEvents_append, hc0, countEvents_cons,
              countEvents_nil, Event.isSendConfirmDispatchTask]
  · intro o s h hconfirm
    cases hpre : preDispatchTaskWithRetry d env args fuel (St.init env) with
    | none => simp [DispatchTask, hpre] at h
    | some res =>
        obtain ⟨o1, s1⟩ := res
        have hin := preDispatchTaskWithRetry_init_trace d env args fuel _ _ hpre
        cases o1 with
        | panicked e =>
            exfalso
            simp only [DispatchTask, hpre, Option.some.injEq, Prod.mk.injEq] at h
            obtain ⟨x, hx, hp⟩ := hconfirm
            rw [← h.2] at hx
            rw [isSendConfirmDispatchTask_of_inPreDispatch _ (hin x hx)] at hp
            cases hp
        | returned v =>
            obtain ⟨rid, err⟩ := v
            cases err with
            | some err =>
                exfalso
                rw [DispatchTask_of_pre_error d env args fuel rid err s1 hpre] at h
                simp only [Option.some.injEq, Prod.mk.injEq] at h
                obtain ⟨x, hx, hp⟩ := hconfirm
                rw [← h.2] at hx
                simp only [St.emit, List.mem_append, List.mem_singleton] at hx
                rcases hx with hx | hx
                · rw [isSendConfirmDispatchTask_of_inPreDispatch _ (hin x hx)] at hp
                  cases hp
                · subst hx
                  cases hp
            | none =>
                obtain ⟨n, _, hn2, hn3, hn4⟩ :=
                  preDispatchTaskWithRetry_nil_error d env args fuel _ rid s1 hpre
                exact ⟨rid, s1, n, rfl, by omega, hn3, hn4⟩


/-- The code test of `confirmDispatchTask` holds exactly for an error that
carries a structured status of code Aborted or NotFound. -/
theorem convert_guaranteed_iff (e : GoError) :
    ((status.Convert e).Code = codes.Aborted ∨ (status.Convert e).Code = codes.NotFound) ↔
      (structuredCode e = some codes.Aborted ∨ structuredCode e = some codes.NotFound) := by
  cases e <;>
    simp [status.Convert, status.FromError, structuredCode, codes.Unknown, codes.Aborted,
      codes.NotFound]

/-- C3: when pre-dispatch succeeds and the confirm-dispatch request fails with an
error that is not a structured Aborted or NotFound status, `DispatchTask`
returns nil, the abort hook is never invoked, and a warning is logged. -/
theorem DispatchTask_undetermined_confirm (d : TaskDispatcher) (env : Env)
    (args : DispatchTaskArgs) (fuel : Nat) (requestID : String) (s1 : St) (e : GoError)
    (hpre : preDispatchTaskWithRetry d env args fuel (St.init env) =
      some (.returned (requestID, none), s1))
    (hconfirm : env.confirm = some e)
    (hund : ¬ (structuredCode e = some codes.Aborted ∨
      structuredCode e = some codes.NotFound)) :
    ∃ s, DispatchTask d env args fuel = some (.returned none, s) ∧
      countEvents Event.isAbortWorker s.trace = 0 ∧
      (∀ x ∈ s.trace, x.2.isAbortWorker = false) ∧
      (s1.now + env.confirmElapsed,
        Event.logWarn
          "ConfirmDispatchTask encountered error, but the server's state is undetermined"
          (.Trace e)) ∈ s.trace := by
  have hg : ¬ ((status.Convert e).Code = codes.Aborted ∨
      (status.Convert e).Code = codes.NotFound) := fun h => hund ((convert_guaranteed_iff e).1 h)
  have hin := preDispatchTaskWithRetry_init_trace d env args fuel _ _ hpre
  have h0 := countEvents_inPreDispatch _ isAbortWorker_of_inPreDispatch _ hin
  rw [DispatchTask_of_pre_success d env args fuel requestID s1 hpre]
  simp only [hconfirm, if_neg hg]
  refine ⟨_, rfl, ?_, ?_, ?_⟩
  · simp [afterConfirm, St.emit, countEvents_append, h0, countEvents_cons, countEvents_nil,
      Event.isAbortWorker]
  · intro x hx
    simp only [afterConfirm, St.emit, List.mem_append, List.mem_cons, List.mem_singleton,
      List.not_mem_nil, or_false] at hx
    rcases hx with (hx | hx | hx) | hx
    · exact isAbortWorker_of_inPreDispatch _ (hin x hx)
    · subst hx; rfl
    · subst hx; rfl
    · subst hx; rfl
  · simp [afterConfirm, St.emit]

theorem DispatchTask_undetermined_confirm_witness :
    ∃ s, DispatchTask newTaskDispatcher
        (exampleEnv background twoFailuresThenSuccess (some (.plain "connection reset")))
        exampleArgs 3 = some (.returned none, s) ∧
      countEvents Event.isAbortWorker s.trace = 0 ∧
      (∀ x ∈ s.trace, x.2.isAbortWorker = false) ∧
      ((2000000000 : Time),
        Event.logWarn
          "ConfirmDispatchTask encountered error, but the server's state is undetermined"
          (.Trace (.plain "connection reset"))) ∈ s.trace :=
  DispatchTask_undetermined_confirm newTaskDispatcher
    (exampleEnv background twoFailuresThenSuccess (some (.plain "connection reset")))
    exampleArgs 3 "2"
    { now := 2000000000
      sends := 3
      trace := [(0, .sendPreDispatchTask (preDispatchRequest exampleArgs "0")),
        (0, .logWarn "PreDispatchTask encountered error, retrying"
          (.grpc codes.Unavailable "unavailable")),
        (0, .timerWait 1000000000),
        (1000000000, .sendPreDispatchTask (preDispatchRequest exampleArgs "1")),
        (1000000000, .logWarn "PreDispatchTask encountered error, retrying"
          (.grpc codes.Internal "internal")),
        (1000000000, .timerWait 1000000000),
        (2000000000, .sendPreDispatchTask (preDispatchRequest exampleArgs "2"))] }
    (.plain "connection reset") (by decide) rfl (by decide)

theorem DispatchTask_error_iff_abort_witness :
    (some (GoError.Wrap .ErrExecutorConfirmDispatchFailed
        (.Trace (.grpc codes.NotFound "gone"))) ≠ none ↔
      ∃ x ∈ [((0 : Time), Event.sendPreDispatchTask (preDispatchRequest exampleArgs "0")),
          (0, Event.startWorkerTimer),
          (0, Event.sendConfirmDispatchTask { WorkerId := "worker-1", RequestId := "0" }),
          (0, Event.abortWorker (.Wrap .ErrExecutorConfirmDispatchFailed
            (.Trace (.grpc codes.NotFound "gone"))))],
        x.2.isAbortWorker = true) :=
  (DispatchTask_error_iff_abort newTaskDispatcher
    (exampleEnv background (fun _ => none) (some (.grpc codes.NotFound "gone")))
    exampleArgs 1
    (some (.Wrap .ErrExecutorConfirmDispatchFailed (.Trace (.grpc codes.NotFound "gone"))))
    { now := 0
      sends := 1
      trace := [(0, .sendPreDispatchTask (preDispatchRequest exampleArgs "0")),
        (0, .startWorkerTimer),
        (0, .sendConfirmDispatchTask { WorkerId := "worker-1", RequestId := "0" }),
        (0, .abortWorker (.Wrap .ErrExecutorConfirmDispatchFailed
          (.Trace (.grpc codes.NotFound "gone"))))] }
    (by decide)).1

theorem DispatchTask_start_between_phases_witness :
    ∃ r s post, DispatchTask newTaskDispatcher
        (exampleEnv background (fun _ => none) (some (.grpc codes.NotFound "gone")))
        exampleArgs 1 = some (.returned r, s) ∧
      s.trace = [((0 : Time), Event.sendPreDispatchTask (preDispatchRequest exampleArgs "0")),
        (0, Event.startWorkerTimer),
        (0, Event.sendConfirmDispatchTask { WorkerId := "worker-1", RequestId := "0" })] ++
        post ∧
      countEvents Event.isStartWorkerTimer s.trace = 1 ∧
      countEvents Event.isSendConfirmDispatchTask s.trace = 1 :=
  let ⟨r, s, post, h1, h2, _, _, h5, h6⟩ :=
    (DispatchTask_start_between_phases newTaskDispatcher
      (exampleEnv background (fun _ => none) (some (.grpc codes.NotFound "gone")))
      exampleArgs 1).1 "0"
      { now := 0
        sends := 1
        trace := [(0, .sendPreDispatchTask (preDispatchRequest exampleArgs "0"))] }
      (by decide)
  ⟨r, s, post, h1, h2, h5, h6⟩

end client

namespace v3

theorem anyStopping_iff (captures : GoMap CaptureID CaptureStatus) :
    anyStopping captures = true ↔ ∃ c ∈ captures, c.2.State = CaptureState.Stopping := by
  induction captures with
  | nil => simp [anyStopping]
  | cons x rest ih =>
      obtain ⟨k, capture⟩ := x
      unfold anyStopping
      by_cases h : capture.State = CaptureStateStopping
      · simp only [if_pos h, true_iff]
        exact ⟨(k, capture), List.mem_cons_self _ _, h⟩
      · simp only [if_neg h, ih, List.mem_cons]
        constructor
        · rintro ⟨c, hc, hs⟩
          exact ⟨c, Or.inr hc, hs⟩
        · rintro ⟨c, hc | hc, hs⟩
          · subst hc
            exact absurd hs h
          · exact ⟨c, hc, hs⟩

/-- The saturated difference `t.Sub(u)` compares with an interval as the exact
difference does, for every interval above the smallest duration. -/
theorem Sub_lt_iff (t u : Time) (interval : Duration) (h1 : time.minDuration < interval)
    (h2 : interval ≤ time.maxDuration) : time.Sub t u < interval ↔ t - u < interval := by
  unfold time.Sub
  split_ifs with ha hb
  · constructor
    · intro h
      exact absurd h (not_lt.2 h2)
    · intro h
      exact absurd (lt_of_lt_of_le ha (le_of_lt h)) (not_lt.2 h2)
  · constructor
    · intro _
      exact lt_trans hb h1
    · intro _
      exact h1
  · exact Iff.rfl

/-- C6: with `forceBalance = false` and a clock reading `now` for which
`now.Sub(lastRebalanceTime) < checkBalanceInterval`, `Schedule` returns no
tasks, does not invoke the move planner and leaves the scheduler as it was. -/
theorem Schedule_skips_before_interval {Rand : Type} (planner : Planner Rand) (now : Time)
    (b : balanceScheduler Rand) (checkpointTs : Nat) (currentTables : List TableID)
    (captures : GoMap CaptureID CaptureStatus) (replications : GoMap TableID ReplicationSet)
    (hforce : b.forceBalance = false)
    (hearly : time.Sub now b.lastRebalanceTime < b.checkBalanceInterval) :
    (Schedule planner now b checkpointTs currentTables captures replications).tasks = [] ∧
      (Schedule planner now b checkpointTs currentTables captures replications).plannerCalls
        = [] ∧
      (Schedule planner now b checkpointTs currentTables captures replications).sched = b := by
  unfold Schedule
  rw [if_pos hforce, if_pos hearly]
  exact ⟨rfl, rfl, rfl⟩

theorem Schedule_skips_before_interval_witness :
    (Schedule examplePlanner 120 (exampleScheduler false) 0 [1, 2] exampleCaptures
        exampleReplications).tasks = [] ∧
      (Schedule examplePlanner 120 (exampleScheduler false) 0 [1, 2] exampleCaptures
        exampleReplications).plannerCalls = [] ∧
      (Schedule examplePlanner 120 (exampleScheduler false) 0 [1, 2] exampleCaptures
        exampleReplications).sched = exampleScheduler false :=
  Schedule_skips_before_interval examplePlanner 120 (exampleScheduler false) 0 [1, 2]
    exampleCaptures exampleReplications rfl (by decide)

theorem scheduleAfterGate_stopping {Rand : Type} (planner : Planner Rand)
    (b : balanceScheduler Rand) (currentTables : List TableID)
    (captures : GoMap CaptureID CaptureStatus) (replications : GoMap TableID ReplicationSet)
    (hstop : anyStopping captures = true) :
    scheduleAfterGate planner b currentTables captures replications =
      { tasks := [], sched := b, plannerCalls := [] } := by
  unfold scheduleAfterGate
  rw [if_pos hstop]

theorem scheduleAfterGate_balance {Rand : Type} (planner : Planner Rand)
    (b : balanceScheduler Rand) (currentTables : List TableID)
    (captures : GoMap CaptureID CaptureStatus) (replications : GoMap TableID ReplicationSet)
    (hstop : anyStopping captures = false) :
    scheduleAfterGate planner b currentTables captures replications =
      { tasks := wrapMoves (planner b.random captures replications b.maxTaskConcurrency).1,
        sched :=
          { b with
            random := (planner b.random captures replications b.maxTaskConcurrency).2,
            forceBalance := decide ((wrapMoves
              (planner b.random captures replications b.maxTaskConcurrency).1).length ≠ 0) },
        plannerCalls :=
          [{ random := b.random, captures := captures, replications := replications,
             maxTaskConcurrency := b.maxTaskConcurrency }] } := by
  unfold scheduleAfterGate buildBalanceMoveTables
  simp [hstop]

/-- C7: when a capture is in state Stopping, `Schedule` returns no tasks, does
not invoke the move planner and leaves `forceBalance` as it was, whatever
`forceBalance` and the elapsed time are. -/
theorem Schedule_stopping_capture {Rand : Type} (planner : Planner Rand) (now : Time)
    (b : balanceScheduler Rand) (checkpointTs : Nat) (currentTables : List TableID)
    (captures : GoMap CaptureID CaptureStatus) (replications : GoMap TableID ReplicationSet)
    (hstop : ∃ c ∈ captures, c.2.State = CaptureState.Stopping) :
    (Schedule planner now b checkpointTs currentTables captures replications).tasks = [] ∧
      (Schedule planner now b checkpointTs currentTables captures replications).plannerCalls
        = [] ∧
      (Schedule planner now b checkpointTs currentTables captures replications).sched.forceBalance
        = b.forceBalance := by
  have hs := (anyStopping_iff captures).2 hstop
  unfold Schedule
  split_ifs
  · exact ⟨rfl, rfl, rfl⟩
  · rw [scheduleAfterGate_stopping planner _ currentTables captures replications hs]
    exact ⟨rfl, rfl, rfl⟩
  · rw [scheduleAfterGate_stopping planner _ currentTables captures replications hs]
    exact ⟨rfl, rfl, rfl⟩

theorem Schedule_stopping_capture_witness :
    (Schedule examplePlanner 500 (exampleScheduler true) 0 [1, 2] exampleCapturesStopping
        exampleReplications).tasks = [] ∧
      (Schedule examplePlanner 500 (exampleScheduler true) 0 [1, 2] exampleCapturesStopping
        exampleReplications).plannerCalls = [] ∧
      (Schedule examplePlanner 500 (exampleScheduler true) 0 [1, 2] exampleCapturesStopping
        exampleReplications).sched.forceBalance = true :=
  Schedule_stopping_capture examplePlanner 500 (exampleScheduler true) 0 [1, 2]
    exampleCapturesStopping exampleReplications
    ⟨("capture-b", { ID := "capture-b", State := .Stopping }), by decide, rfl⟩

/-- C8: when a call of `Schedule` passes the interval gate (`forceBalance` is
true, or the elapsed time is at least `checkBalanceInterval`) and no capture is
in state Stopping, `forceBalance` is true after the call if and only if the
returned task list is not empty; the tasks are the wrapped moves of the
planner. -/
theorem Schedule_forceBalance_iff_tasks {Rand : Type} (planner : Planner Rand) (now : Time)
    (b : balanceScheduler Rand) (checkpointTs : Nat) (currentTables : List TableID)
    (captures : GoMap CaptureID CaptureStatus) (replications : GoMap TableID ReplicationSet)
    (hgate : b.forceBalance = true ∨
      b.checkBalanceInterval ≤ time.Sub now b.lastRebalanceTime)
    (hnostop : ∀ c ∈ captures, c.2.State ≠ CaptureState.Stopping) :
    ((Schedule planner now b checkpointTs currentTables captures replications).sched.forceBalance
        = true ↔
      (Schedule planner now b checkpointTs currentTables captures replications).tasks ≠ []) ∧
    (Schedule planner now b checkpointTs currentTables captures replications).tasks =
      wrapMoves (planner b.random captures replications b.maxTaskConcurrency).1 := by
  have hs : anyStopping captures = false := by
    cases h : anyStopping captures with
    | false => rfl
    | true =>
        obtain ⟨c, hc, hstate⟩ := (anyStopping_iff captures).1 h
        exact absurd hstate (hnostop c hc)
  unfold Schedule
  split_ifs with h1 h2
  · exfalso
    rcases hgate with hg | hg
    · rw [h1] at hg
      cases hg
    · exact absurd h2 (not_lt.2 hg)
  · rw [scheduleAfterGate_balance planner _ currentTables captures replications hs]
    simp [List.length_eq_zero]
  · rw [scheduleAfterGate_balance planner _ currentTables captures replications hs]
    simp [List.length_eq_zero]

theorem Schedule_forceBalance_iff_tasks_witness :
    ((Schedule examplePlanner 120 (exampleScheduler true) 0 [1, 2] exampleCaptures
          exampleReplications).sched.forceBalance = true ↔
        (Schedule examplePlanner 120 (exampleScheduler true) 0 [1, 2] exampleCaptures
          exampleReplications).tasks ≠ []) ∧
      (Schedule examplePlanner 120 (exampleScheduler true) 0 [1, 2] exampleCaptures
          exampleReplications).tasks =
        [{ moveTable := some { TableID := 1, DestCapture := "capture-b" }, others := [] }] :=
  Schedule_forceBalance_iff_tasks examplePlanner 120 (exampleScheduler true) 0 [1, 2]
    exampleCaptures exampleReplications (Or.inl rfl) (by decide)


theorem wrapMoves_eq_map (moves : List moveTable) :
    wrapMoves moves = moves.map (fun m => { moveTable := some m, others := [] }) := by
  induction moves with
  | nil => rfl
  | cons m rest ih => simp [wrapMoves, ih]

theorem anyStopping_eq_false (captures : GoMap CaptureID CaptureStatus)
    (h : ∀ c ∈ captures, c.2.State ≠ CaptureState.Stopping) : anyStopping captures = false := by
  cases hs : anyStopping captures with
  | false => rfl
  | true =>
      obtain ⟨c, hc, hstate⟩ := (anyStopping_iff captures).1 hs
      exact absurd hstate (h c hc)

/-- A call of `Schedule` that enters with `forceBalance = true` is the part after
the interval gate. -/
theorem Schedule_of_forceBalance {Rand : Type} (planner : Planner Rand) (now : Time)
    (b : balanceScheduler Rand) (checkpointTs : Nat) (currentTables : List TableID)
    (captures : GoMap CaptureID CaptureStatus) (replications : GoMap TableID ReplicationSet)
    (h : b.forceBalance = true) :
    Schedule planner now b checkpointTs currentTables captures replications =
      scheduleAfterGate planner b currentTables captures replications := by
  unfold Schedule
  rw [if_neg (by simp [h])]

/-- A call of `Schedule` that enters with `forceBalance = false` after the
interval has elapsed is the part after the gate, from the scheduler with the
new `lastRebalanceTime`. -/
theorem Schedule_of_elapsed {Rand : Type} (planner : Planner Rand) (now : Time)
    (b : balanceScheduler Rand) (checkpointTs : Nat) (currentTables : List TableID)
    (captures : GoMap CaptureID CaptureStatus) (replications : GoMap TableID ReplicationSet)
    (h : b.forceBalance = false)
    (hel : b.checkBalanceInterval ≤ time.Sub now b.lastRebalanceTime) :
    Schedule planner now b checkpointTs currentTables captures replications =
      scheduleAfterGate planner { b with lastRebalanceTime := now } currentTables captures
        replications := by
  unfold Schedule
  rw [if_pos h, if_neg (not_lt.2 hel)]

/-- A call of `Schedule` that enters with `forceBalance = false` before the
interval has elapsed does nothing. -/
theorem Schedule_of_early {Rand : Type} (planner : Planner Rand) (now : Time)
    (b : balanceScheduler Rand) (checkpointTs : Nat) (currentTables : List TableID)
    (captures : GoMap CaptureID CaptureStatus) (replications : GoMap TableID ReplicationSet)
    (h : b.forceBalance = false)
    (hel : time.Sub now b.lastRebalanceTime < b.checkBalanceInterval) :
    Schedule planner now b checkpointTs currentTables captures replications =
      { tasks := [], sched := b, plannerCalls := [] } := by
  unfold Schedule
  rw [if_pos h, if_pos hel]

/-- The part of `Schedule` after the gate never touches `lastRebalanceTime`. -/
theorem scheduleAfterGate_lastRebalanceTime {Rand : Type} (planner : Planner Rand)
    (b : balanceScheduler Rand) (currentTables : List TableID)
    (captures : GoMap CaptureID CaptureStatus) (replications : GoMap TableID ReplicationSet) :
    (scheduleAfterGate planner b currentTables captures replications).sched.lastRebalanceTime =
      b.lastRebalanceTime := by
  cases hs : anyStopping captures with
  | true => rw [scheduleAfterGate_stopping planner b currentTables captures replications hs]
  | false => rw [scheduleAfterGate_balance planner b currentTables captures replications hs]

/-- C11: after a call of `Schedule`, `lastRebalanceTime` is the clock reading
`now` when `forceBalance` was false on entry and the elapsed time
`now.Sub(lastRebalanceTime)` was at least `checkBalanceInterval`, and its value
before the call otherwise; a call entered with `forceBalance = true` never
changes it, whatever the captures and whatever the planner returns. -/
theorem Schedule_lastRebalanceTime {Rand : Type} (planner : Planner Rand) (now : Time)
    (b : balanceScheduler Rand) (checkpointTs : Nat) (currentTables : List TableID)
    (captures : GoMap CaptureID CaptureStatus) (replications : GoMap TableID ReplicationSet) :
    (Schedule planner now b checkpointTs currentTables captures
        replications).sched.lastRebalanceTime =
      (if b.forceBalance = false ∧ b.checkBalanceInterval ≤ time.Sub now b.lastRebalanceTime
        then now else b.lastRebalanceTime) ∧
    (b.forceBalance = true →
      (Schedule planner now b checkpointTs currentTables captures
        replications).sched.lastRebalanceTime = b.lastRebalanceTime) := by
  cases hf : b.forceBalance with
  | true =>
      rw [Schedule_of_forceBalance planner now b checkpointTs currentTables captures
        replications hf, scheduleAfterGate_lastRebalanceTime]
      simp
  | false =>
      by_cases hel : b.checkBalanceInterval ≤ time.Sub now b.lastRebalanceTime
      · rw [Schedule_of_elapsed planner now b checkpointTs currentTables captures
          replications hf hel, scheduleAfterGate_lastRebalanceTime]
        simp [hel]
      · rw [Schedule_of_early planner now b checkpointTs currentTables captures
          replications hf (not_le.1 hel)]
        simp [hel]

/-- A run of C11: entered with `forceBalance = false` at instant 200, after the
interval of 50 since instant 100 has elapsed, the call sets `lastRebalanceTime`
to 200; entered with `forceBalance = true` it leaves 100. -/
theorem Schedule_lastRebalanceTime_witness :
    (Schedule examplePlanner 200 (exampleScheduler false) 0 [1, 2] exampleCaptures
        exampleReplications).sched.lastRebalanceTime = 200 ∧
      (Schedule examplePlanner 200 (exampleScheduler true) 0 [1, 2] exampleCaptures
        exampleReplications).sched.lastRebalanceTime = 100 :=
  ⟨(Schedule_lastRebalanceTime examplePlanner 200 (exampleScheduler false) 0 [1, 2]
      exampleCaptures exampleReplications).1,
    (Schedule_lastRebalanceTime examplePlanner 200 (exampleScheduler true) 0 [1, 2]
      exampleCaptures exampleReplications).2 rfl⟩


/-- A call of `Schedule` that passes the interval gate without stopping capture,
in full: the planner is invoked once, on the scheduler's random source and
budget. -/
theorem Schedule_of_gate_passed {Rand : Type} (planner : Planner Rand) (now : Time)
    (b : balanceScheduler Rand) (checkpointTs : Nat) (currentTables : List TableID)
    (captures : GoMap CaptureID CaptureStatus) (replications : GoMap TableID ReplicationSet)
    (hgate : b.forceBalance = true ∨
      b.checkBalanceInterval ≤ time.Sub now b.lastRebalanceTime)
    (hnostop : ∀ c ∈ captures, c.2.State ≠ CaptureState.Stopping) :
    (Schedule planner now b checkpointTs currentTables captures replications).tasks =
        wrapMoves (planner b.random captures replications b.maxTaskConcurrency).1 ∧
      (Schedule planner now b checkpointTs currentTables captures replications).plannerCalls =
        [{ random := b.random, captures := captures, replications := replications,
           maxTaskConcurrency := b.maxTaskConcurrency }] := by
  have hs := anyStopping_eq_false captures hnostop
  cases hf : b.forceBalance with
  | true =>
      rw [Schedule_of_forceBalance planner now b checkpointTs currentTables captures
        replications hf, scheduleAfterGate_balance planner _ currentTables captures
        replications hs]
      exact ⟨rfl, rfl⟩
  | false =>
      have hel : b.checkBalanceInterval ≤ time.Sub now b.lastRebalanceTime := by
        rcases hgate with hg | hg
        · rw [hf] at hg
          cases hg
        · exact hg
      rw [Schedule_of_elapsed planner now b checkpointTs currentTables captures
        replications hf hel, scheduleAfterGate_balance planner _ currentTables captures
        replications hs]
      exact ⟨rfl, rfl⟩

/-- C15: when a call of `Schedule` passes the interval gate and no capture is in
state Stopping, the planner is invoked once and the returned tasks are the
planner's moves, one task per move and in the planner's order, the `i`-th task
holding the `i`-th move and nothing else; so when the planner returns at most
`maxTaskConcurrency` moves, `Schedule` returns at most `maxTaskConcurrency`
tasks. -/
theorem Schedule_tasks_are_moves {Rand : Type} (planner : Planner Rand) (now : Time)
    (b : balanceScheduler Rand) (checkpointTs : Nat) (currentTables : List TableID)
    (captures : GoMap CaptureID CaptureStatus) (replications : GoMap TableID ReplicationSet)
    (hgate : b.forceBalance = true ∨
      b.checkBalanceInterval ≤ time.Sub now b.lastRebalanceTime)
    (hnostop : ∀ c ∈ captures, c.2.State ≠ CaptureState.Stopping) :
    (Schedule planner now b checkpointTs currentTables captures replications).tasks =
        (planner b.random captures replications b.maxTaskConcurrency).1.map
          (fun m => { moveTable := some m, others := [] }) ∧
      (Schedule planner now b checkpointTs currentTables captures replications).tasks.length =
        (planner b.random captures replications b.maxTaskConcurrency).1.length ∧
      (∀ i, ((Schedule planner now b checkpointTs currentTables captures
          replications).tasks.get? i) =
        ((planner b.random captures replications b.maxTaskConcurrency).1.get? i).map
          (fun m => { moveTable := some m, others := [] })) ∧
      (Schedule planner now b checkpointTs currentTables captures replications).plannerCalls =
        [{ random := b.random, captures := captures, replications := replications,
           maxTaskConcurrency := b.maxTaskConcurrency }] ∧
      (((planner b.random captures replications b.maxTaskConcurrency).1.length : Int) ≤
          b.maxTaskConcurrency →
        ((Schedule planner now b checkpointTs currentTables captures
          replications).tasks.length : Int) ≤ b.maxTaskConcurrency) := by
  obtain ⟨ht, hcalls⟩ := Schedule_of_gate_passed planner now b checkpointTs currentTables
    captures replications hgate hnostop
  rw [ht, wrapMoves_eq_map]
  refine ⟨rfl, by simp, ?_, hcalls, ?_⟩
  · intro i
    simp [List.getElem?_map]
  · intro h
    simpa using h

theorem Schedule_tasks_are_moves_witness :
    (Schedule examplePlanner 200 (exampleScheduler false) 0 [1, 2] exampleCaptures
        exampleReplications).tasks =
      [{ moveTable := some { TableID := 1, DestCapture := "capture-b" }, others := [] }] ∧
    ((Schedule examplePlanner 200 (exampleScheduler false) 0 [1, 2] exampleCaptures
        exampleReplications).tasks.length : Int) ≤ 1 :=
  have h := Schedule_tasks_are_moves examplePlanner 200 (exampleScheduler false) 0 [1, 2]
    exampleCaptures exampleReplications (Or.inr (by decide)) (by decide)
  ⟨h.1, h.2.2.2.2 (by decide)⟩

/-- One call of `Schedule` entered with `forceBalance = false`, in which every
invocation of the planner gives no move, leaves `forceBalance = false`. -/
theorem Schedule_forceBalance_stays_false {Rand : Type} (planner : Planner Rand) (now : Time)
    (b : balanceScheduler Rand) (checkpointTs : Nat) (currentTables : List TableID)
    (captures : GoMap CaptureID CaptureStatus) (replications : GoMap TableID ReplicationSet)
    (hf : b.forceBalance = false)
    (hidle : ∀ c ∈ (Schedule planner now b checkpointTs currentTables captures
        replications).plannerCalls,
      (planner c.random c.captures c.replications c.maxTaskConcurrency).1 = []) :
    (Schedule planner now b checkpointTs currentTables captures
      replications).sched.forceBalance = false := by
  by_cases hel : b.checkBalanceInterval ≤ time.Sub now b.lastRebalanceTime
  · rw [Schedule_of_elapsed planner now b checkpointTs currentTables captures
      replications hf hel] at hidle ⊢
    cases hs : anyStopping captures with
    | true =>
        rw [scheduleAfterGate_stopping planner _ currentTables captures replications hs]
        exact hf
    | false =>
        rw [scheduleAfterGate_balance planner _ currentTables captures replications hs]
          at hidle ⊢
        have h0 := hidle _ (List.mem_singleton.2 rfl)
        simp only at h0
        simp [h0, wrapMoves]
  · rw [Schedule_of_early planner now b checkpointTs currentTables captures
      replications hf (not_le.1 hel)]
    exact hf

/-- C16: in a sequence of calls of `Schedule` that starts with
`forceBalance = false` and in which the move planner gives no move every time
it is invoked, `forceBalance` is false after every call, whatever the clock
readings and the captures are. -/
theorem scheduleSequence_forceBalance_false {Rand : Type} (planner : Planner Rand)
    (b : balanceScheduler Rand) (inputs : List ScheduleInput)
    (hf : b.forceBalance = false)
    (hidle : ∀ r ∈ scheduleSequence planner b inputs, ∀ c ∈ r.plannerCalls,
      (planner c.random c.captures c.replications c.maxTaskConcurrency).1 = []) :
    ∀ r ∈ scheduleSequence planner b inputs, r.sched.forceBalance = false := by
  induction inputs generalizing b with
  | nil =>
      intro r hr
      simp [scheduleSequence] at hr
  | cons i rest ih =>
      have h1 : (Schedule planner i.now b i.checkpointTs i.currentTables i.captures
          i.replications).sched.forceBalance = false :=
        Schedule_forceBalance_stays_false planner i.now b i.checkpointTs i.currentTables
          i.captures i.replications hf
          (hidle _ (by simp [scheduleSequence]))
      intro r hr
      simp only [scheduleSequence, List.mem_cons] at hr
      rcases hr with hr | hr
      · rw [hr]
        exact h1
      · exact ih _ h1 (fun r1 hr1 => hidle r1 (by
          simp only [scheduleSequence, List.mem_cons]
          exact Or.inr hr1)) r hr

theorem scheduleSequence_forceBalance_false_witness :
    (scheduleSequence idlePlanner (exampleScheduler false) exampleTicks).all
        (fun r => !r.sched.forceBalance) = true ∧
      (scheduleSequence idlePlanner (exampleScheduler false) exampleTicks).map
        (fun r => (r.sched.forceBalance, r.plannerCalls.length)) =
        [(false, 1), (false, 0), (false, 1)] :=
  ⟨List.all_eq_true.2 (fun r hr => by
      rw [scheduleSequence_forceBalance_false idlePlanner (exampleScheduler false)
        exampleTicks rfl (fun _ _ _ _ => rfl) r hr]
      rfl),
    by decide⟩


/-- A call of `Schedule` that returns a task leaves `forceBalance = true`. -/
theorem Schedule_forceBalance_of_tasks {Rand : Type} (planner : Planner Rand) (now : Time)
    (b : balanceScheduler Rand) (checkpointTs : Nat) (currentTables : List TableID)
    (captures : GoMap CaptureID CaptureStatus) (replications : GoMap TableID ReplicationSet)
    (hprod : (Schedule planner now b checkpointTs currentTables captures replications).tasks
      ≠ []) :
    (Schedule planner now b checkpointTs currentTables captures
      replications).sched.forceBalance = true := by
  have after : ∀ b1 : balanceScheduler Rand,
      (scheduleAfterGate planner b1 currentTables captures replications).tasks ≠ [] →
      (scheduleAfterGate planner b1 currentTables captures replications).sched.forceBalance
        = true := by
    intro b1 h
    cases hs : anyStopping captures with
    | true =>
        rw [scheduleAfterGate_stopping planner b1 currentTables captures replications hs] at h
        exact absurd rfl h
    | false =>
        rw [scheduleAfterGate_balance planner b1 currentTables captures replications hs]
          at h ⊢
        simpa [List.length_eq_zero] using h
  cases hf : b.forceBalance with
  | true =>
      rw [Schedule_of_forceBalance planner now b checkpointTs currentTables captures
        replications hf] at hprod ⊢
      exact after b hprod
  | false =>
      by_cases hel : b.checkBalanceInterval ≤ time.Sub now b.lastRebalanceTime
      · rw [Schedule_of_elapsed planner now b checkpointTs currentTables captures
          replications hf hel] at hprod ⊢
        exact after _ hprod
      · rw [Schedule_of_early planner now b checkpointTs currentTables captures
          replications hf (not_le.1 hel)] at hprod
        exact absurd rfl hprod

/-- C18, as the code has it: a call of `Schedule` that returned at least one task
leaves `forceBalance = true`; the next call then skips the interval check (it
is the part of `Schedule` after the gate, at every clock reading, and leaves
`lastRebalanceTime` alone); if that next call returns no tasks and no capture
is in state Stopping, `forceBalance` is false after it, and the call after
that is gated by the interval again; if a capture is in state Stopping, that
next call returns no tasks and leaves `forceBalance = true`. -/
theorem Schedule_force_after_productive {Rand : Type} (planner : Planner Rand)
    (b0 : balanceScheduler Rand) (i1 i2 i3 : ScheduleInput) (r1 r2 r3 : ScheduleResult Rand)
    (h1 : r1 = Schedule planner i1.now b0 i1.checkpointTs i1.currentTables i1.captures
      i1.replications)
    (h2 : r2 = Schedule planner i2.now r1.sched i2.checkpointTs i2.currentTables i2.captures
      i2.replications)
    (h3 : r3 = Schedule planner i3.now r2.sched i3.checkpointTs i3.currentTables i3.captures
      i3.replications)
    (hprod : r1.tasks ≠ []) :
    r1.sched.forceBalance = true ∧
      r2 = scheduleAfterGate planner r1.sched i2.currentTables i2.captures i2.replications ∧
      r2.sched.lastRebalanceTime = r1.sched.lastRebalanceTime ∧
      (r2.tasks = [] → (∀ c ∈ i2.captures, c.2.State ≠ CaptureState.Stopping) →
        r2.sched.forceBalance = false ∧
        (time.Sub i3.now r2.sched.lastRebalanceTime < r2.sched.checkBalanceInterval →
          r3.tasks = [] ∧ r3.plannerCalls = [] ∧ r3.sched = r2.sched)) ∧
      ((∃ c ∈ i2.captures, c.2.State = CaptureState.Stopping) →
        r2.tasks = [] ∧ r2.sched.forceBalance = true) := by
  have hforce : r1.sched.forceBalance = true := by
    rw [h1] at hprod ⊢
    exact Schedule_forceBalance_of_tasks planner _ _ _ _ _ _ hprod
  have hr2 : r2 = scheduleAfterGate planner r1.sched i2.currentTables i2.captures
      i2.replications := by
    rw [h2, Schedule_of_forceBalance planner _ _ _ _ _ _ hforce]
  refine ⟨hforce, hr2, ?_, ?_, ?_⟩
  · rw [hr2, scheduleAfterGate_lastRebalanceTime]
  · intro hempty hnostop
    have hs := anyStopping_eq_false i2.captures hnostop
    have hr2b := hr2
    rw [scheduleAfterGate_balance planner _ _ _ _ hs] at hr2b
    have hf2 : r2.sched.forceBalance = false := by
      have hlen : r2.tasks.length = 0 := by rw [hempty]; rfl
      rw [hr2b] at hlen ⊢
      simp only at hlen
      simp [hlen]
    refine ⟨hf2, fun hearly => ?_⟩
    rw [h3, Schedule_of_early planner _ _ _ _ _ _ hf2 hearly]
    exact ⟨rfl, rfl, rfl⟩
  · intro hstop
    have hs := (anyStopping_iff i2.captures).2 hstop
    rw [hr2, scheduleAfterGate_stopping planner _ _ _ _ hs]
    exact ⟨rfl, hforce⟩

theorem Schedule_force_after_productive_witness :
    (Schedule examplePlanner 200 (exampleScheduler false) 0 [1, 2] exampleCaptures
        exampleReplications).tasks ≠ [] ∧
      (Schedule examplePlanner 200 (exampleScheduler false) 0 [1, 2] exampleCaptures
        exampleReplications).sched.forceBalance = true ∧
      (Schedule examplePlanner 201
        (Schedule examplePlanner 200 (exampleScheduler false) 0 [1, 2] exampleCaptures
          exampleReplications).sched 0 [1, 2] exampleCaptures []).sched.forceBalance = false ∧
      (Schedule examplePlanner 202
        (Schedule examplePlanner 201
          (Schedule examplePlanner 200 (exampleScheduler false) 0 [1, 2] exampleCaptures
            exampleReplications).sched 0 [1, 2] exampleCaptures []).sched
        0 [1, 2] exampleCaptures exampleReplications).tasks = [] :=
  have h := Schedule_force_after_productive examplePlanner (exampleScheduler false)
    (exampleTick 200 exampleCaptures exampleReplications)
    (exampleTick 201 exampleCaptures [])
    (exampleTick 202 exampleCaptures exampleReplications) _ _ _ rfl rfl rfl (by decide)
  ⟨by decide, h.1, (h.2.2.2.1 (by decide) (by decide)).1,
    ((h.2.2.2.1 (by decide) (by decide)).2 (by decide)).1⟩

/-- C18 fails as stated: after a call that returned a task (at instant 200), the
next call (at 201) meets a capture in state Stopping, returns no tasks and
leaves `forceBalance = true`, not false; so the call after that (at 202, two
units after the last rebalance, the interval being 50) is not gated by the
interval and returns a task. -/
theorem Schedule_force_after_productive_counterexample :
    (Schedule examplePlanner 200 (exampleScheduler false) 0 [1, 2] exampleCaptures
        exampleReplications).tasks ≠ [] ∧
      (Schedule examplePlanner 201
        (Schedule examplePlanner 200 (exampleScheduler false) 0 [1, 2] exampleCaptures
          exampleReplications).sched 0 [1, 2] exampleCapturesStopping
        exampleReplications).tasks = [] ∧
      ¬ ((Schedule examplePlanner 201
        (Schedule examplePlanner 200 (exampleScheduler false) 0 [1, 2] exampleCaptures
          exampleReplications).sched 0 [1, 2] exampleCapturesStopping
        exampleReplications).sched.forceBalance = false) ∧
      time.Sub 202 (Schedule examplePlanner 201
        (Schedule examplePlanner 200 (exampleScheduler false) 0 [1, 2] exampleCaptures
          exampleReplications).sched 0 [1, 2] exampleCapturesStopping
        exampleReplications).sched.lastRebalanceTime <
        (Schedule examplePlanner 201
          (Schedule examplePlanner 200 (exampleScheduler false) 0 [1, 2] exampleCaptures
            exampleReplications).sched 0 [1, 2] exampleCapturesStopping
          exampleReplications).sched.checkBalanceInterval ∧
      (Schedule examplePlanner 202
        (Schedule examplePlanner 201
          (Schedule examplePlanner 200 (exampleScheduler false) 0 [1, 2] exampleCaptures
            exampleReplications).sched 0 [1, 2] exampleCapturesStopping
          exampleReplications).sched
        0 [1, 2] exampleCaptures exampleReplications).tasks ≠ [] := by
  decide

/-- The grouping itself does depend on the list of current tables. -/
theorem groupCaptureTables_depends_on_currentTables :
    groupCaptureTables exampleReplications [1] [] = [("capture-a", [1])] ∧
      groupCaptureTables exampleReplications [1, 2] [] = [("capture-a", [1, 2])] := by
  decide

/-- C20: the per-capture grouping of the tables is unused: for all lists of
current tables, `buildBalanceMoveTables` gives the same tasks (and the same
random source and planner invocation), and `Schedule`, from equal schedulers
and clock readings, gives the same tasks and leaves the same scheduler. -/
theorem buildBalanceMoveTables_ignores_currentTables {Rand : Type} (planner : Planner Rand)
    (random : Rand) (currentTables1 currentTables2 : List TableID)
    (captures : GoMap CaptureID CaptureStatus) (replications : GoMap TableID ReplicationSet)
    (maxTaskConcurrency : Int) :
    buildBalanceMoveTables planner random currentTables1 captures replications
        maxTaskConcurrency =
      buildBalanceMoveTables planner random currentTables2 captures replications
        maxTaskConcurrency ∧
    ∀ (now : Time) (b : balanceScheduler Rand) (checkpointTs : Nat),
      Schedule planner now b checkpointTs currentTables1 captures replications =
        Schedule planner now b checkpointTs currentTables2 captures replications := by
  have hbuild : ∀ r n, buildBalanceMoveTables planner r currentTables1 captures replications n =
      buildBalanceMoveTables planner r currentTables2 captures replications n :=
    fun _ _ => rfl
  refine ⟨hbuild _ _, fun now b checkpointTs => ?_⟩
  unfold Schedule scheduleAfterGate
  simp only [hbuild]

end v3

namespace client

/-! ## The requests of the pre-dispatch phase -/

/-- An iteration of the retry loop sends no request or one request: the request
of the attempt it makes, with the next generated ID. -/
theorem retryIteration_sentRequests (d : TaskDispatcher) (env : Env) (args : DispatchTaskArgs)
    (s : St) :
    (∀ o s1, retryIteration d env args s = .inl (o, s1) →
      (s1.sends = s.sends ∧ sentRequests s1.trace = sentRequests s.trace) ∨
      (s1.sends = s.sends + 1 ∧ sentRequests s1.trace =
        sentRequests s.trace ++ [preDispatchRequest args (env.uuid s.sends)])) ∧
    (∀ s1, retryIteration d env args s = .inr s1 →
      s1.sends = s.sends + 1 ∧ sentRequests s1.trace =
        sentRequests s.trace ++ [preDispatchRequest args (env.uuid s.sends)]) := by
  rcases retryIteration_cases d env args s with ⟨_, _, h1⟩ | ⟨_, _, h1⟩ | ⟨_, _, _, _, h1⟩ |
    ⟨_, _, _, _, h1⟩ | ⟨_, _, _, _, _, _, _, ⟨_, h1⟩ | ⟨_, _, h1⟩ | ⟨_, h1⟩⟩
  all_goals rw [h1]
  all_goals refine ⟨fun o s1 h => ?_, fun s1 h => ?_⟩
  all_goals simp only [Sum.inl.injEq, Sum.inr.injEq, Prod.mk.injEq, reduceCtorEq] at h
  all_goals first
    | (obtain ⟨_, h⟩ := h
       subst h
       first
        | exact Or.inl ⟨rfl, rfl⟩
        | (right
           simp [afterPreDispatch, St.emit, sentRequests_append, sentRequests]))
    | (subst h
       simp [afterPreDispatch, St.emit, sentRequests_append, sentRequests])

/-- The requests the retry loop sends are those of consecutive attempts: the
`j`-th request of the call carries the `j`-th generated ID. -/
theorem preDispatchTaskWithRetry_sentRequests (d : TaskDispatcher) (env : Env)
    (args : DispatchTaskArgs) :
    ∀ (fuel : Nat) (s : St) (o : Outcome (String × Option GoError)) (s1 : St),
      preDispatchTaskWithRetry d env args fuel s = some (o, s1) →
      s.sends ≤ s1.sends ∧
      sentRequests s1.trace = sentRequests s.trace ++
        (List.range' s.sends (s1.sends - s.sends)).map
          (fun j => preDispatchRequest args (env.uuid j)) := by
  intro fuel
  induction fuel with
  | zero => intro s o s1 h; simp [preDispatchTaskWithRetry] at h
  | succ f ih =>
      intro s o s1 h
      rw [preDispatchTaskWithRetry_succ] at h
      cases hit : retryIteration d env args s with
      | inl res =>
          rw [hit] at h
          simp only [Option.some.injEq] at h
          subst h
          rcases (retryIteration_sentRequests d env args s).1 o s1 hit with ⟨h1, h2⟩ | ⟨h1, h2⟩
          · rw [h1, h2]
            simp
          · rw [h1, h2]
            simp
      | inr s2 =>
          rw [hit] at h
          obtain ⟨h1, h2⟩ := (retryIteration_sentRequests d env args s).2 s2 hit
          obtain ⟨h3, h4⟩ := ih s2 o s1 h
          refine ⟨by omega, ?_⟩
          rw [h4, h2, h1, List.append_assoc]
          congr 1
          have hlen : s1.sends - s.sends = (s1.sends - (s.sends + 1)) + 1 := by omega
          rw [hlen, List.range'_succ]
          simp

/-- The confirm phase of `DispatchTask` sends no pre-dispatch request. -/
theorem DispatchTask_sends (d : TaskDispatcher) (env : Env) (args : DispatchTaskArgs)
    (fuel : Nat) (o : Outcome (Option GoError)) (s : St)
    (h : DispatchTask d env args fuel = some (o, s)) :
    ∃ o1 s1, preDispatchTaskWithRetry d env args fuel (St.init env) = some (o1, s1) ∧
      s.sends = s1.sends ∧ sentRequests s.trace = sentRequests s1.trace ∧
      (∀ e, o1 = .panicked e → o = .panicked e ∧ s = s1) ∧
      (∀ e, o = .panicked e → o1 = .panicked e) := by
  cases hpre : preDispatchTaskWithRetry d env args fuel (St.init env) with
  | none => simp [DispatchTask, hpre] at h
  | some res =>
      obtain ⟨o1, s1⟩ := res
      refine ⟨o1, s1, rfl, ?_⟩
      cases o1 with
      | panicked e =>
          simp only [DispatchTask, hpre, Option.some.injEq, Prod.mk.injEq] at h
          obtain ⟨h1, h2⟩ := h
          subst h1 h2
          exact ⟨rfl, rfl, fun e1 he1 => ⟨(by cases he1; rfl), rfl⟩, fun e1 he1 => (by cases he1; rfl)⟩
      | returned v =>
          obtain ⟨rid, err⟩ := v
          cases err with
          | some err =>
              rw [DispatchTask_of_pre_error d env args fuel rid err s1 hpre] at h
              simp only [Option.some.injEq, Prod.mk.injEq] at h
              obtain ⟨h1, h2⟩ := h
              subst h1 h2
              refine ⟨rfl, ?_, fun e1 he1 => (by cases he1), fun e1 he1 => (by cases he1)⟩
              simp [St.emit, sentRequests_append, sentRequests]
          | none =>
              rw [DispatchTask_of_pre_success d env args fuel rid s1 hpre] at h
              cases hc : env.confirm with
              | none =>
                  simp only [hc, Option.some.injEq, Prod.mk.injEq] at h
                  obtain ⟨h1, h2⟩ := h
                  subst h1 h2
                  refine ⟨rfl, ?_, fun e1 he1 => (by cases he1), fun e1 he1 => (by cases he1)⟩
                  simp [afterConfirm, sentRequests_append, sentRequests]
              | some e =>
                  simp only [hc] at h
                  split_ifs at h
                  all_goals simp only [Option.some.injEq, Prod.mk.injEq] at h
                  all_goals obtain ⟨h1, h2⟩ := h
                  all_goals subst h1 h2
                  all_goals refine ⟨rfl, ?_, fun e1 he1 => (by cases he1),
                    fun e1 he1 => (by cases he1)⟩
                  all_goals simp [afterConfirm, St.emit, sentRequests_append, sentRequests]

/-- The pre-dispatch requests of a call of `DispatchTask`: the `j`-th of them
carries the `j`-th generated ID. -/
theorem DispatchTask_sentRequests (d : TaskDispatcher) (env : Env) (args : DispatchTaskArgs)
    (fuel : Nat) (o : Outcome (Option GoError)) (s : St)
    (h : DispatchTask d env args fuel = some (o, s)) :
    sentRequests s.trace =
      (List.range s.sends).map (fun j => preDispatchRequest args (env.uuid j)) := by
  obtain ⟨o1, s1, hpre, h1, h2, _⟩ := DispatchTask_sends d env args fuel o s h
  obtain ⟨_, h4⟩ := preDispatchTaskWithRetry_sentRequests d env args fuel _ o1 s1 hpre
  rw [h2, h4, h1]
  simp [St.init, sentRequests, List.range_eq_range']

/-- C17: with an identifier generator that never gives the same value twice, the
pre-dispatch requests sent during a call of `DispatchTask` carry pairwise
distinct request IDs: the `j`-th request carries the `j`-th generated ID, so
the ID of an attempt differs from the ID of the attempt before it. -/
theorem DispatchTask_requestIDs_distinct (d : TaskDispatcher) (env : Env)
    (args : DispatchTaskArgs) (fuel : Nat) (o : Outcome (Option GoError)) (s : St)
    (hinj : Function.Injective env.uuid)
    (h : DispatchTask d env args fuel = some (o, s)) :
    ((sentRequests s.trace).map (fun q => q.RequestId)).Nodup ∧
      (sentRequests s.trace).map (fun q => q.RequestId) = (List.range s.sends).map env.uuid ∧
      (∀ j, j + 1 < s.sends →
        (sentRequests s.trace).get? (j + 1) =
            some (preDispatchRequest args (env.uuid (j + 1))) ∧
          (sentRequests s.trace).get? j = some (preDispatchRequest args (env.uuid j)) ∧
          env.uuid (j + 1) ≠ env.uuid j) := by
  have hreq := DispatchTask_sentRequests d env args fuel o s h
  have hids : (sentRequests s.trace).map (fun q => q.RequestId) =
      (List.range s.sends).map env.uuid := by
    rw [hreq, List.map_map]
    rfl
  refine ⟨?_, hids, ?_⟩
  · rw [hids]
    exact (List.nodup_range s.sends).map hinj
  · intro j hj
    rw [hreq]
    refine ⟨?_, ?_, ?_⟩
    · simp [List.getElem?_map, List.getElem?_range hj]
    · simp [List.getElem?_map, List.getElem?_range (show j < s.sends by omega)]
    · intro heq
      have := hinj heq
      omega

theorem uniqueIDs_injective : Function.Injective uniqueIDs := by
  intro a b hab
  unfold uniqueIDs at hab
  have h := congrArg (fun x => x.data.length) hab
  simpa using h

theorem DispatchTask_requestIDs_distinct_witness :
    Function.Injective uniqueIDs ∧
      ((sentRequests
        [((0 : Time), Event.sendPreDispatchTask (preDispatchRequest exampleArgs "x")),
          (0, .logWarn "PreDispatchTask encountered error, retrying"
            (.grpc codes.Unavailable "unavailable")),
          (0, .timerWait 1000000000),
          (1000000000, .sendPreDispatchTask (preDispatchRequest exampleArgs "xx")),
          (1000000000, .logWarn "PreDispatchTask encountered error, retrying"
            (.grpc codes.Internal "internal")),
          (1000000000, .timerWait 1000000000),
          (2000000000, .sendPreDispatchTask (preDispatchRequest exampleArgs "xxx")),
          (2000000000, .startWorkerTimer),
          (2000000000, .sendConfirmDispatchTask
            { WorkerId := "worker-1", RequestId := "xxx" })]).map
        (fun q => q.RequestId)).Nodup :=
  ⟨uniqueIDs_injective,
    (DispatchTask_requestIDs_distinct newTaskDispatcher
      { exampleEnv background twoFailuresThenSuccess none with uuid := uniqueIDs }
      exampleArgs 3 (.returned none)
      { now := 2000000000
        sends := 3
        trace := [(0, .sendPreDispatchTask (preDispatchRequest exampleArgs "x")),
          (0, .logWarn "PreDispatchTask encountered error, retrying"
            (.grpc codes.Unavailable "unavailable")),
          (0, .timerWait 1000000000),
          (1000000000, .sendPreDispatchTask (preDispatchRequest exampleArgs "xx")),
          (1000000000, .logWarn "PreDispatchTask encountered error, retrying"
            (.grpc codes.Internal "internal")),
          (1000000000, .timerWait 1000000000),
          (2000000000, .sendPreDispatchTask (preDispatchRequest exampleArgs "xxx")),
          (2000000000, .startWorkerTimer),
          (2000000000, .sendConfirmDispatchTask
            { WorkerId := "worker-1", RequestId := "xxx" })] }
      uniqueIDs_injective (by decide)).1⟩


/-! ## The confirm phase -/

theorem confirmRequests_append (l1 l2 : List (Time × Event)) :
    confirmRequests (l1 ++ l2) = confirmRequests l1 ++ confirmRequests l2 := by
  induction l1 with
  | nil => rfl
  | cons x rest ih =>
      obtain ⟨t, e⟩ := x
      cases e <;> simp [confirmRequests, ih]

theorem abortErrors_append (l1 l2 : List (Time × Event)) :
    abortErrors (l1 ++ l2) = abortErrors l1 ++ abortErrors l2 := by
  induction l1 with
  | nil => rfl
  | cons x rest ih =>
      obtain ⟨t, e⟩ := x
      cases e <;> simp [abortErrors, ih]

theorem confirmRequests_inPreDispatch (l : List (Time × Event))
    (hl : ∀ x ∈ l, x.2.inPreDispatch = true) : confirmRequests l = [] := by
  induction l with
  | nil => rfl
  | cons x rest ih =>
      obtain ⟨t, e⟩ := x
      have hx := hl (t, e) (List.mem_cons_self _ _)
      have hrest := ih (fun y hy => hl y (List.mem_cons_of_mem _ hy))
      cases e <;> simp_all [confirmRequests, Event.inPreDispatch]

theorem abortErrors_inPreDispatch (l : List (Time × Event))
    (hl : ∀ x ∈ l, x.2.inPreDispatch = true) : abortErrors l = [] := by
  induction l with
  | nil => rfl
  | cons x rest ih =>
      obtain ⟨t, e⟩ := x
      have hx := hl (t, e) (List.mem_cons_self _ _)
      have hrest := ih (fun y hy => hl y (List.mem_cons_of_mem _ hy))
      cases e <;> simp_all [abortErrors, Event.inPreDispatch]

/-- After a successful pre-dispatch, `DispatchTask` returns; its trace is the trace
of the pre-dispatch phase, the start hook, the confirm-dispatch request, and
at most one more event, which is an abort hook or a log line. -/
theorem DispatchTask_trace_of_pre_success (d : TaskDispatcher) (env : Env)
    (args : DispatchTaskArgs) (fuel : Nat) (requestID : String) (s1 : St)
    (hpre : preDispatchTaskWithRetry d env args fuel (St.init env) =
      some (.returned (requestID, none), s1)) :
    ∃ r s post, DispatchTask d env args fuel = some (.returned r, s) ∧
      s.sends = s1.sends ∧
      s.trace = s1.trace ++
        [(s1.now, Event.startWorkerTimer),
          (s1.now, Event.sendConfirmDispatchTask
            { WorkerId := args.WorkerID, RequestId := requestID })] ++ post ∧
      sentRequests post = [] ∧ confirmRequests post = [] := by
  rw [DispatchTask_of_pre_success d env args fuel requestID s1 hpre]
  cases hconf : env.confirm with
  | none => exact ⟨_, _, [], rfl, rfl, by simp [afterConfirm], rfl, rfl⟩
  | some e =>
      by_cases hg : (status.Convert e).Code = codes.Aborted ∨
          (status.Convert e).Code = codes.NotFound
      · simp only [if_pos hg]
        exact ⟨_, _, [(s1.now + env.confirmElapsed, Event.abortWorker
            (.Wrap .ErrExecutorConfirmDispatchFailed (.Trace e)))], rfl, rfl,
          by simp [afterConfirm, St.emit], rfl, rfl⟩
      · simp only [if_neg hg]
        exact ⟨_, _, [(s1.now + env.confirmElapsed, Event.logWarn
            "ConfirmDispatchTask encountered error, but the server's state is undetermined"
            (.Trace e))], rfl, rfl, by simp [afterConfirm, St.emit], rfl, rfl⟩

/-- C19: when pre-dispatch succeeds, at its attempt `n` after any number of
retried attempts, the one confirm-dispatch request of the call carries the
request ID of that last attempt (the ID of the last pre-dispatch request sent,
which with a generator that never repeats is the ID of no earlier attempt) and
the worker ID of the arguments, which every pre-dispatch request of the call
carries too. -/
theorem DispatchTask_confirm_carries_last_id (d : TaskDispatcher) (env : Env)
    (args : DispatchTaskArgs) (fuel : Nat) (requestID : String) (s1 : St)
    (hpre : preDispatchTaskWithRetry d env args fuel (St.init env) =
      some (.returned (requestID, none), s1)) :
    ∃ r s n, DispatchTask d env args fuel = some (.returned r, s) ∧
      s.sends = n + 1 ∧ env.preDispatch n = none ∧ requestID = env.uuid n ∧
      confirmRequests s.trace = [{ WorkerId := args.WorkerID, RequestId := requestID }] ∧
      sentRequests s.trace =
        (List.range (n + 1)).map (fun j => preDispatchRequest args (env.uuid j)) ∧
      (sentRequests s.trace).getLast? = some (preDispatchRequest args requestID) ∧
      (∀ q ∈ sentRequests s.trace, q.WorkerId = args.WorkerID) ∧
      (Function.Injective env.uuid → ∀ j, j < n → env.uuid j ≠ requestID) := by
  obtain ⟨n, _, hn2, hn3, hn4⟩ :=
    preDispatchTaskWithRetry_nil_error d env args fuel _ requestID s1 hpre
  obtain ⟨r, s, post, hrun, hsends, htrace, hpost1, hpost2⟩ :=
    DispatchTask_trace_of_pre_success d env args fuel requestID s1 hpre
  have hin := preDispatchTaskWithRetry_init_trace d env args fuel _ _ hpre
  have hreq : sentRequests s.trace =
      (List.range (n + 1)).map (fun j => preDispatchRequest args (env.uuid j)) := by
    rw [DispatchTask_sentRequests d env args fuel _ s hrun, hsends, hn2]
  refine ⟨r, s, n, hrun, by rw [hsends, hn2], hn3, hn4, ?_, hreq, ?_, ?_, ?_⟩
  · rw [htrace]
    simp [confirmRequests_append, confirmRequests_inPreDispatch _ hin, hpost2, confirmRequests]
  · rw [hreq, List.range_succ, List.map_append, hn4]
    simp
  · intro q hq
    rw [hreq] at hq
    obtain ⟨j, _, rfl⟩ := List.mem_map.1 hq
    rfl
  · intro hinj j hj heq
    rw [hn4] at heq
    have := hinj heq
    omega

theorem DispatchTask_confirm_carries_last_id_witness :
    ∃ r s n, DispatchTask newTaskDispatcher
        (exampleEnv background twoFailuresThenSuccess none) exampleArgs 3 =
        some (.returned r, s) ∧
      s.sends = n + 1 ∧ twoFailuresThenSuccess n = none ∧ "2" = toString n ∧
      confirmRequests s.trace = [{ WorkerId := "worker-1", RequestId := "2" }] ∧
      sentRequests s.trace =
        (List.range (n + 1)).map (fun j => preDispatchRequest exampleArgs (toString j)) ∧
      (sentRequests s.trace).getLast? = some (preDispatchRequest exampleArgs "2") :=
  let ⟨r, s, n, h1, h2, h3, h4, h5, h6, h7, _⟩ :=
    DispatchTask_confirm_carries_last_id newTaskDispatcher
      (exampleEnv background twoFailuresThenSuccess none) exampleArgs 3 "2"
      { now := 2000000000
        sends := 3
        trace := [(0, .sendPreDispatchTask (preDispatchRequest exampleArgs "0")),
          (0, .logWarn "PreDispatchTask encountered error, retrying"
            (.grpc codes.Unavailable "unavailable")),
          (0, .timerWait 1000000000),
          (1000000000, .sendPreDispatchTask (preDispatchRequest exampleArgs "1")),
          (1000000000, .logWarn "PreDispatchTask encountered error, retrying"
            (.grpc codes.Internal "internal")),
          (1000000000, .timerWait 1000000000),
          (2000000000, .sendPreDispatchTask (preDispatchRequest exampleArgs "2"))] }
      (by decide)
  ⟨r, s, n, h1, h2, h3, h4, h5, h6, h7⟩

/-- C12: when pre-dispatch succeeds and the confirm-dispatch request fails with a
structured NotFound or Aborted status, `DispatchTask` returns the error
`ErrExecutorConfirmDispatchFailed` wrapped around the (traced) RPC error; after
the pre-dispatch phase its trace is the start hook, the confirm-dispatch
request and the abort hook, invoked with that same returned error: the abort
hook is invoked exactly once, the start hook exactly once and before it. -/
theorem DispatchTask_guaranteed_confirm_failure (d : TaskDispatcher) (env : Env)
    (args : DispatchTaskArgs) (fuel : Nat) (requestID : String) (s1 : St) (e : GoError)
    (hpre : preDispatchTaskWithRetry d env args fuel (St.init env) =
      some (.returned (requestID, none), s1))
    (hconfirm : env.confirm = some e)
    (hcode : structuredCode e = some codes.NotFound ∨
      structuredCode e = some codes.Aborted) :
    ∃ s, DispatchTask d env args fuel =
        some (.returned (some (.Wrap .ErrExecutorConfirmDispatchFailed (.Trace e))), s) ∧
      Cause (.Wrap .ErrExecutorConfirmDispatchFailed (.Trace e)) = e ∧
      s.trace = s1.trace ++
        [(s1.now, Event.startWorkerTimer),
          (s1.now, Event.sendConfirmDispatchTask
            { WorkerId := args.WorkerID, RequestId := requestID }),
          (s1.now + env.confirmElapsed,
            Event.abortWorker (.Wrap .ErrExecutorConfirmDispatchFailed (.Trace e)))] ∧
      abortErrors s.trace = [.Wrap .ErrExecutorConfirmDispatchFailed (.Trace e)] ∧
      countEvents Event.isAbortWorker s.trace = 1 ∧
      countEvents Event.isStartWorkerTimer s.trace = 1 := by
  have hg : (status.Convert e).Code = codes.Aborted ∨
      (status.Convert e).Code = codes.NotFound :=
    (convert_guaranteed_iff e).2 (Or.symm hcode)
  have hin := preDispatchTaskWithRetry_init_trace d env args fuel _ _ hpre
  have ha0 := countEvents_inPreDispatch _ isAbortWorker_of_inPreDispatch _ hin
  have hs0 := countEvents_inPreDispatch _ isStartWorkerTimer_of_inPreDispatch _ hin
  have hcause : Cause (.Wrap .ErrExecutorConfirmDispatchFailed (.Trace e)) = e := by
    rcases hcode with hc | hc
    · obtain ⟨m, rfl⟩ := structuredCode_eq_some e _ hc
      rfl
    · obtain ⟨m, rfl⟩ := structuredCode_eq_some e _ hc
      rfl
  rw [DispatchTask_of_pre_success d env args fuel requestID s1 hpre]
  simp only [hconfirm, if_pos hg]
  refine ⟨_, rfl, hcause, ?_, ?_, ?_, ?_⟩
  · simp [afterConfirm, St.emit]
  · simp [afterConfirm, St.emit, abortErrors_append, abortErrors_inPreDispatch _ hin,
      abortErrors]
  · simp [afterConfirm, St.emit, countEvents_append, ha0, countEvents_cons, countEvents_nil,
      Event.isAbortWorker]
  · simp [afterConfirm, St.emit, countEvents_append, hs0, countEvents_cons, countEvents_nil,
      Event.isStartWorkerTimer]

theorem DispatchTask_guaranteed_confirm_failure_witness :
    ∃ s, DispatchTask newTaskDispatcher
        (exampleEnv background (fun _ => none) (some (.grpc codes.NotFound "gone")))
        exampleArgs 1 =
        some (.returned (some (.Wrap .ErrExecutorConfirmDispatchFailed
          (.Trace (.grpc codes.NotFound "gone")))), s) ∧
      s.trace = [((0 : Time), Event.sendPreDispatchTask (preDispatchRequest exampleArgs "0")),
        (0, Event.startWorkerTimer),
        (0, Event.sendConfirmDispatchTask { WorkerId := "worker-1", RequestId := "0" }),
        (0, Event.abortWorker (.Wrap .ErrExecutorConfirmDispatchFailed
          (.Trace (.grpc codes.NotFound "gone"))))] :=
  let ⟨s, h1, _, h3, _⟩ :=
    DispatchTask_guaranteed_confirm_failure newTaskDispatcher
      (exampleEnv background (fun _ => none) (some (.grpc codes.NotFound "gone")))
      exampleArgs 1 "0"
      { now := 0
        sends := 1
        trace := [(0, .sendPreDispatchTask (preDispatchRequest exampleArgs "0"))] }
      (.grpc codes.NotFound "gone") (by decide) rfl (Or.inl (by decide))
  ⟨s, h1, h3⟩


/-- C13: when `preDispatchTaskWithRetry` returns an error `e`, `DispatchTask`
invokes the abort hook exactly once, with `e`, and returns the error
`ErrExecutorPreDispatchFailed` wrapped around `e`; it invokes no start hook and
sends no confirm-dispatch request.  When the context is already done as the
call starts, the call (given fuel for one iteration) ends so with the error of
the context and sends no pre-dispatch request either. -/
theorem DispatchTask_pre_dispatch_failed (d : TaskDispatcher) (env : Env)
    (args : DispatchTaskArgs) (fuel : Nat) :
    (∀ requestID e s1,
      preDispatchTaskWithRetry d env args fuel (St.init env) =
        some (.returned (requestID, some e), s1) →
      ∃ s, DispatchTask d env args fuel =
          some (.returned (some (.Wrap .ErrExecutorPreDispatchFailed e)), s) ∧
        s.trace = s1.trace ++ [(s1.now, Event.abortWorker e)] ∧
        abortErrors s.trace = [e] ∧
        countEvents Event.isAbortWorker s.trace = 1 ∧
        countEvents Event.isStartWorkerTimer s.trace = 0 ∧
        countEvents Event.isSendConfirmDispatchTask s.trace = 0 ∧
        confirmRequests s.trace = []) ∧
    (∀ ctxErr, env.ctx.Err env.start = some ctxErr → 0 < fuel →
      DispatchTask d env args fuel =
        some (.returned (some (.Wrap .ErrExecutorPreDispatchFailed ctxErr)),
          { now := env.start, sends := 0,
            trace := [(env.start, Event.abortWorker ctxErr)] }) ∧
      sentRequests [(env.start, Event.abortWorker ctxErr)] = []) := by
  constructor
  · intro requestID e s1 hpre
    have hin := preDispatchTaskWithRetry_init_trace d env args fuel _ _ hpre
    have ha0 := countEvents_inPreDispatch _ isAbortWorker_of_inPreDispatch _ hin
    have hs0 := countEvents_inPreDispatch _ isStartWorkerTimer_of_inPreDispatch _ hin
    have hc0 := countEvents_inPreDispatch _ isSendConfirmDispatchTask_of_inPreDispatch _ hin
    rw [DispatchTask_of_pre_error d env args fuel requestID e s1 hpre]
    refine ⟨_, rfl, rfl, ?_, ?_, ?_, ?_, ?_⟩
    · simp [St.emit, abortErrors_append, abortErrors_inPreDispatch _ hin, abortErrors]
    · simp [St.emit, countEvents_append, ha0, countEvents_cons, countEvents_nil,
        Event.isAbortWorker]
    · simp [St.emit, countEvents_append, hs0, countEvents_cons, countEvents_nil,
        Event.isStartWorkerTimer]
    · simp [St.emit, countEvents_append, hc0, countEvents_cons, countEvents_nil,
        Event.isSendConfirmDispatchTask]
    · simp [St.emit, confirmRequests_append, confirmRequests_inPreDispatch _ hin,
        confirmRequests]
  · intro ctxErr hctx hfuel
    obtain ⟨f, rfl⟩ : ∃ f, fuel = f + 1 := ⟨fuel - 1, by omega⟩
    have hpre : preDispatchTaskWithRetry d env args (f + 1) (St.init env) =
        some (.returned ("", some ctxErr), St.init env) := by
      rw [preDispatchTaskWithRetry_succ,
        retryIteration_ctxDone d env args (St.init env) ctxErr hctx]
    rw [DispatchTask_of_pre_error d env args (f + 1) "" ctxErr _ hpre]
    exact ⟨rfl, rfl⟩

theorem DispatchTask_pre_dispatch_failed_witness :
    DispatchTask newTaskDispatcher (exampleEnv background alwaysAborted none) exampleArgs 1 =
        some (.returned (some (.Wrap .ErrExecutorPreDispatchFailed
            (.Trace (.grpc codes.Aborted "aborted")))),
          { now := 0, sends := 1,
            trace := [(0, .sendPreDispatchTask (preDispatchRequest exampleArgs "0")),
              (0, .abortWorker (.Trace (.grpc codes.Aborted "aborted")))] }) ∧
      DispatchTask newTaskDispatcher (exampleEnv (cancelledAt 0) (fun _ => none) none)
          exampleArgs 1 =
        some (.returned (some (.Wrap .ErrExecutorPreDispatchFailed .Canceled)),
          { now := 0, sends := 0, trace := [(0, .abortWorker .Canceled)] }) :=
  ⟨by decide,
    ((DispatchTask_pre_dispatch_failed newTaskDispatcher
      (exampleEnv (cancelledAt 0) (fun _ => none) none) exampleArgs 1).2
      .Canceled (by decide) (by decide)).1⟩

/-! ## The fatal status AlreadyExists -/

/-- When the retry loop makes an attempt whose request fails with a structured
AlreadyExists status, the loop ends at that attempt with a panic. -/
theorem preDispatchTaskWithRetry_alreadyExists (d : TaskDispatcher) (env : Env)
    (args : DispatchTaskArgs) (n : Nat) (e : GoError) (he : env.preDispatch n = some e)
    (hc : structuredCode e = some codes.AlreadyExists) :
    ∀ (fuel : Nat) (s : St) (o : Outcome (String × Option GoError)) (s1 : St),
      preDispatchTaskWithRetry d env args fuel s = some (o, s1) →
      s.sends ≤ n → n < s1.sends →
      o = .panicked e ∧ s1.sends = n + 1 ∧
      ∃ (pre : List (Time × Event)) (t : Time), s1.trace = pre ++
        [(t, Event.sendPreDispatchTask (preDispatchRequest args (env.uuid n))),
          (t + env.preElapsed n, Event.logPanic "Unexpected error" e)] := by
  have hnA : codes.AlreadyExists ≠ codes.Aborted := by decide
  intro fuel
  induction fuel with
  | zero => intro s o s1 h; simp [preDispatchTaskWithRetry] at h
  | succ f ih =>
      intro s o s1 h hle hlt
      rw [preDispatchTaskWithRetry_succ] at h
      rcases retryIteration_cases d env args s with ⟨_, _, h1⟩ | ⟨_, hp, h1⟩ |
        ⟨e1, _, hp, hcode, h1⟩ | ⟨e1, _, hp, hcode, h1⟩ |
        ⟨e1, c, _, hp, hcode, hc1, hc2, ⟨_, h1⟩ | ⟨_, _, h1⟩ | ⟨_, h1⟩⟩
      all_goals rw [h1] at h
      all_goals simp only [Option.some.injEq, Prod.mk.injEq] at h
      · obtain ⟨_, h3⟩ := h
        subst h3
        omega
      · obtain ⟨_, h3⟩ := h
        subst h3
        have hn : n = s.sends := by
          simp only [afterPreDispatch] at hlt
          omega
        subst hn
        rw [hp] at he
        cases he
      · obtain ⟨_, h3⟩ := h
        subst h3
        have hn : n = s.sends := by
          simp only [afterPreDispatch] at hlt
          omega
        subst hn
        rw [hp] at he
        cases he
        rw [hc] at hcode
        rcases hcode with hcode | hcode
        · cases hcode
        · exact absurd (Option.some.inj hcode) hnA
      · obtain ⟨h2, h3⟩ := h
        subst h2 h3
        have hn : n = s.sends := by
          simp only [afterPreDispatch, St.emit] at hlt
          omega
        subst hn
        rw [hp] at he
        cases he
        exact ⟨rfl, rfl, s.trace, s.now, by simp [afterPreDispatch, St.emit]⟩
      · obtain ⟨_, h3⟩ := h
        subst h3
        have hn : n = s.sends := by
          simp only [afterPreDispatch, St.emit] at hlt
          omega
        subst hn
        rw [hp] at he
        cases he
        rw [hc] at hcode
        exact absurd (Option.some.inj hcode).symm hc2
      · obtain ⟨_, h3⟩ := h
        subst h3
        have hn : n = s.sends := by
          simp only [afterPreDispatch, St.emit] at hlt
          omega
        subst hn
        rw [hp] at he
        cases he
        rw [hc] at hcode
        exact absurd (Option.some.inj hcode).symm hc2
      · by_cases hn : n = s.sends
        · subst hn
          rw [hp] at he
          cases he
          rw [hc] at hcode
          exact absurd (Option.some.inj hcode).symm hc2
        · exact ih _ o s1 h (by simp only [afterPreDispatch, St.emit]; omega) hlt

/-- C14: when a call of `DispatchTask` makes a pre-dispatch attempt (the `n`-th)
whose request fails with a structured AlreadyExists status, the call halts at
that attempt with a panic: `preDispatchTaskOnce` gives neither a success nor a
returned triple, the request of attempt `n` and the panic log are the last
events of the call, no further pre-dispatch request is sent, and neither the
start hook, the abort hook nor a confirm-dispatch request occurs. -/
theorem DispatchTask_alreadyExists_halts (d : TaskDispatcher) (env : Env)
    (args : DispatchTaskArgs) (fuel : Nat) (o : Outcome (Option GoError)) (s : St)
    (n : Nat) (e : GoError)
    (hrun : DispatchTask d env args fuel = some (o, s))
    (hattempt : n < s.sends)
    (he : env.preDispatch n = some e)
    (hc : structuredCode e = some codes.AlreadyExists) :
    o = .panicked e ∧ s.sends = n + 1 ∧
      (∀ s0 : St, s0.sends = n → (preDispatchTaskOnce env args s0).1 = .panicked e) ∧
      (∃ (pre : List (Time × Event)) (t : Time), s.trace = pre ++
        [(t, Event.sendPreDispatchTask (preDispatchRequest args (env.uuid n))),
          (t + env.preElapsed n, Event.logPanic "Unexpected error" e)]) ∧
      (∀ x ∈ s.trace, x.2.isStartWorkerTimer = false ∧ x.2.isAbortWorker = false ∧
        x.2.isSendConfirmDispatchTask = false) := by
  obtain ⟨o1, s1, hpre, hsends, _, hpanic, _⟩ := DispatchTask_sends d env args fuel o s hrun
  obtain ⟨ho1, hs1, htr⟩ := preDispatchTaskWithRetry_alreadyExists d env args n e he hc fuel
    (St.init env) o1 s1 hpre (Nat.zero_le _) (by rw [← hsends]; exact hattempt)
  obtain ⟨ho, hs⟩ := hpanic e ho1
  have hin := preDispatchTaskWithRetry_init_trace d env args fuel _ _ hpre
  subst hs
  refine ⟨ho, hs1, ?_, htr, ?_⟩
  · intro s0 hs0
    rw [preDispatchTaskOnce_alreadyExists env args s0 e (by rw [hs0]; exact he) hc]
  · intro x hx
    exact ⟨isStartWorkerTimer_of_inPreDispatch _ (hin x hx),
      isAbortWorker_of_inPreDispatch _ (hin x hx),
      isSendConfirmDispatchTask_of_inPreDispatch _ (hin x hx)⟩

theorem DispatchTask_alreadyExists_halts_witness :
    DispatchTask newTaskDispatcher (exampleEnv background failureThenAlreadyExists none)
        exampleArgs 5 =
      some (.panicked (.grpc codes.AlreadyExists "exists"),
        { now := 1000000000
          sends := 2
          trace := [(0, .sendPreDispatchTask (preDispatchRequest exampleArgs "0")),
            (0, .logWarn "PreDispatchTask encountered error, retrying"
              (.grpc codes.Unavailable "unavailable")),
            (0, .timerWait 1000000000),
            (1000000000, .sendPreDispatchTask (preDispatchRequest exampleArgs "1")),
            (1000000000, .logPanic "Unexpected error"
              (.grpc codes.AlreadyExists "exists"))] }) ∧
    (∀ s0 : St, s0.sends = 1 →
      (preDispatchTaskOnce (exampleEnv background failureThenAlreadyExists none)
        exampleArgs s0).1 = .panicked (.grpc codes.AlreadyExists "exists")) :=
  ⟨by decide,
    (DispatchTask_alreadyExists_halts newTaskDispatcher
      (exampleEnv background failureThenAlreadyExists none) exampleArgs 5
      (.panicked (.grpc codes.AlreadyExists "exists"))
      { now := 1000000000
        sends := 2
        trace := [(0, .sendPreDispatchTask (preDispatchRequest exampleArgs "0")),
          (0, .logWarn "PreDispatchTask encountered error, retrying"
            (.grpc codes.Unavailable "unavailable")),
          (0, .timerWait 1000000000),
          (1000000000, .sendPreDispatchTask (preDispatchRequest exampleArgs "1")),
          (1000000000, .logPanic "Unexpected error"
            (.grpc codes.AlreadyExists "exists"))] }
      1 (.grpc codes.AlreadyExists "exists") (by decide) (by decide) rfl (by decide)).2.2.1⟩

end client
